import Mathlib

/-!
Verification of the jetson-camera-monitor runtime coordination core.

The definitions below are shallow embeddings of the Python sources:
* `src/autostart_autodown/JETSON1_INTEGRATED.py` — the day/night
  detection gate (`update_auto_system`, `process_day_mode`,
  `process_night_mode`);
* `src/src/scheduler/work_scheduler.py` — `is_work_time`,
  `minutes_until_work_start`, and one iteration of `_scheduler_loop`;
* `src/src/scheduler/service_manager.py` — `start_service`,
  `stop_service`, `start_all_services`, `stop_all_services`;
* `src/src/monitoring/vibration/vibration_analyzer.py` and
  `vibration_detector.py` — the analyzer buffers/alerts and the
  session start/stop and CSV-row logic.

Wall-clock and monotonic timestamps are modelled as natural numbers
(seconds); `timedelta(minutes=m)` becomes `m * 60` seconds carried in
the configuration.  Comparisons of the form `now - t0 >= k` on
timestamps are rendered as `t0 + k ≤ now`, which agrees with the
Python comparison on all inputs (including clock regressions, where
the Python difference is negative).  Numeric sensor data is modelled
with rationals.
-/

namespace JetsonMonitor

/-- Actions the detection gate can emit on a frame tick: the MQTT
"ON" publish, the MQTT "OFF" publish, and a motion snapshot save. -/
inductive Action where
  | powerOn
  | powerOff
  | saveSnapshot
deriving DecidableEq, Repr

/-- Configuration values read from `config.json` by
`JETSON1_INTEGRATED.py`: `DETECTION_HOLD_SEC`, `NIGHT_CHECK_MINUTES`
(stored here already converted to seconds), and
`SNAPSHOT_COOLDOWN_SEC`. -/
structure AutoConfig where
  detectionHoldSec : ℕ
  nightCheckSec : ℕ
  saveCooldownSec : ℕ
deriving DecidableEq, Repr

/-- The fixed module-level constant `WARMUP_FRAMES = 30`. -/
def WARMUP_FRAMES : ℕ := 30

/-- Mutable auto-start/down state of `IntegratedMonitorApp`
(`__init__`, lines 124–133): `on_triggered`, `det_hold_start`,
`night_check_active`, `night_no_person_deadline`,
`off_triggered_once`, `prev_daytime`, `last_snapshot_tick`,
`frame_idx`, `yolo_frame_skip`. -/
structure AutoState where
  onTriggered : Bool
  detHoldStart : Option ℕ
  nightCheckActive : Bool
  nightDeadline : Option ℕ
  offTriggeredOnce : Bool
  prevDaytime : Option Bool
  lastSnapshotTick : Option ℕ
  frameIdx : ℕ
  yoloFrameSkip : ℕ
deriving DecidableEq, Repr

/-- The state set up in `IntegratedMonitorApp.__init__`. -/
def initAutoState : AutoState :=
  { onTriggered := false
    detHoldStart := none
    nightCheckActive := false
    nightDeadline := none
    offTriggeredOnce := false
    prevDaytime := none
    lastSnapshotTick := none
    frameIdx := 0
    yoloFrameSkip := 0 }

/-- One successfully captured frame tick of `update_auto_system`.
`daytime` is the value of `is_daytime_mode(now)`; `personDetected` is
the YOLO person result for this frame (consulted only on the frames
where YOLO actually runs); `motionDetected` is the background
subtraction verdict (area `≥ MOTION_MIN_AREA`); `now` is
`datetime.now()` in seconds and `mono` is `time.monotonic()` in
seconds.  Failed frame reads are no-op ticks in the source and are
therefore simply absent from traces. -/
structure Tick where
  daytime : Bool
  personDetected : Bool
  motionDetected : Bool
  now : ℕ
  mono : ℕ
deriving DecidableEq, Repr

/-- `process_day_mode` (lines 497–545).  The method first counts the
frame-skip counter; YOLO runs only on every third frame
(`yolo_frame_skip` reaching 3).  On a processed frame, a detected
person starts or continues the hold timer, and the ON publish fires
when the hold has lasted `DETECTION_HOLD_SEC` with `on_triggered`
still unset; a processed frame without a person clears the hold
timer. -/
def processDayMode (cfg : AutoConfig) (s : AutoState) (t : Tick) :
    AutoState × Option Action :=
  if s.yoloFrameSkip + 1 < 3 then
    ({ s with yoloFrameSkip := s.yoloFrameSkip + 1 }, none)
  else
    let s1 := { s with yoloFrameSkip := 0 }
    if t.personDetected then
      match s1.detHoldStart with
      | none => ({ s1 with detHoldStart := some t.now }, none)
      | some t0 =>
        if t0 + cfg.detectionHoldSec ≤ t.now ∧ s1.onTriggered = false then
          ({ s1 with onTriggered := true }, some Action.powerOn)
        else
          (s1, none)
    else
      ({ s1 with detHoldStart := none }, none)

/-- `process_night_mode` (lines 547–627).  The frame index is bumped
on every night frame.  Stage 1 (`night_check_active`): a detected
person pushes the no-person deadline forward; once the deadline has
passed, the OFF publish fires if `off_triggered_once` is still unset
and the gate drops to stage 2.  Stage 2: after the warm-up frame
count, motion saves a snapshot subject to the monotonic-clock
cooldown. -/
def processNightMode (cfg : AutoConfig) (s : AutoState) (t : Tick) :
    AutoState × Option Action :=
  let s := { s with frameIdx := s.frameIdx + 1 }
  if s.nightCheckActive then
    let s :=
      if t.personDetected then
        { s with nightDeadline := some (t.now + cfg.nightCheckSec) }
      else s
    match s.nightDeadline with
    | some d =>
      if d ≤ t.now then
        if s.offTriggeredOnce = false then
          ({ s with offTriggeredOnce := true, nightCheckActive := false,
                    nightDeadline := none }, some Action.powerOff)
        else
          ({ s with nightCheckActive := false, nightDeadline := none }, none)
      else
        (s, none)
    | none => (s, none)
  else
    if WARMUP_FRAMES < s.frameIdx then
      if t.motionDetected then
        let canSave :=
          match s.lastSnapshotTick with
          | none => true
          | some last => last + cfg.saveCooldownSec ≤ t.mono
        if canSave then
          ({ s with lastSnapshotTick := some t.mono }, some Action.saveSnapshot)
        else
          (s, none)
      else
        (s, none)
    else
      (s, none)

/-- The mode bookkeeping at the top of `update_auto_system` (lines
452–484): first-tick initialization of `prev_daytime` (which, having
run, suppresses the two transition branches on that same tick because
they compare against the freshly assigned value), the Day→Night reset
(fresh deadline, cleared hold timer and `off_triggered_once`), the
Night→Day reset, and the final `prev_daytime` update. -/
def applyModeTransitions (cfg : AutoConfig) (s : AutoState) (t : Tick) :
    AutoState :=
  let s :=
    match s.prevDaytime with
    | none =>
      if t.daytime then
        { s with prevDaytime := some true }
      else
        { s with prevDaytime := some false, nightCheckActive := true,
                 nightDeadline := some (t.now + cfg.nightCheckSec) }
    | some _ => s
  let s :=
    if s.prevDaytime = some true ∧ t.daytime = false then
      { s with nightCheckActive := true,
               nightDeadline := some (t.now + cfg.nightCheckSec),
               detHoldStart := none, offTriggeredOnce := false }
    else s
  let s :=
    if s.prevDaytime = some false ∧ t.daytime = true then
      { s with onTriggered := false, detHoldStart := none,
               nightCheckActive := false, nightDeadline := none,
               offTriggeredOnce := false }
    else s
  { s with prevDaytime := some t.daytime }

/-- `update_auto_system` (lines 434–495) on a successfully captured
frame: the transition bookkeeping followed by the per-mode
processing. -/
def updateAutoSystem (cfg : AutoConfig) (s : AutoState) (t : Tick) :
    AutoState × Option Action :=
  let s := applyModeTransitions cfg s t
  if t.daytime then processDayMode cfg s t else processNightMode cfg s t

/-- Folding `update_auto_system` over a trace of frame ticks. -/
def runAuto (cfg : AutoConfig) : AutoState → List Tick → AutoState
  | s, [] => s
  | s, t :: ts => runAuto cfg (updateAutoSystem cfg s t).1 ts

/-- The per-tick outputs of `update_auto_system` along a trace. -/
def autoOutputs (cfg : AutoConfig) : AutoState → List Tick → List (Option Action)
  | _, [] => []
  | s, t :: ts =>
    (updateAutoSystem cfg s t).2 :: autoOutputs cfg (updateAutoSystem cfg s t).1 ts

/-- Number of ticks on which a given action is emitted. -/
def countAct (a : Action) (outs : List (Option Action)) : ℕ :=
  outs.count (some a)

/-- Number of day-mode ticks in a trace.  Because `process_day_mode`
bumps `yolo_frame_skip` on every day frame and resets it at 3, the
skip counter always equals this count modulo 3, and YOLO actually
runs exactly on the day frames whose preceding day-frame count is 2
modulo 3. -/
def dayTickCount (ts : List Tick) : ℕ := ts.countP (fun t => t.daytime)

/-- Number of night-mode ticks in a trace.  `process_night_mode`
increments `frame_idx` on every night frame and nothing ever resets
it, so `frame_idx` always equals this count. -/
def nightTickCount (ts : List Tick) : ℕ := ts.countP (fun t => !t.daytime)

/-- The hold timer `det_hold_start = some t0` is sound for the trace
`pre`: some YOLO-processed day frame detected a person at wall-clock
time `t0` and started the hold, every later frame of the trace is a
day frame, and every later YOLO-processed day frame also detected a
person (unprocessed frames in between never consult YOLO and are
skipped by the source). -/
def HoldSetter (pre : List Tick) (t0 : ℕ) : Prop :=
  ∃ pre₁ tj mid, pre = pre₁ ++ tj :: mid ∧
    tj.daytime = true ∧ tj.personDetected = true ∧ tj.now = t0 ∧
    dayTickCount pre₁ % 3 = 2 ∧
    ∀ mid₁ u mid₂, mid = mid₁ ++ u :: mid₂ →
      u.daytime = true ∧
      (dayTickCount (pre₁ ++ tj :: mid₁) % 3 = 2 → u.personDetected = true)

/-- A day frame with no person and no motion at time `n`. -/
def dayT (n : ℕ) : Tick :=
  { daytime := true, personDetected := false, motionDetected := false,
    now := n, mono := n }

/-- A day frame with a person present at time `n`. -/
def personT (n : ℕ) : Tick :=
  { daytime := true, personDetected := true, motionDetected := false,
    now := n, mono := n }

/-- A night frame (motion as given) at time `n`. -/
def nightT (motion : Bool) (n : ℕ) : Tick :=
  { daytime := false, personDetected := false, motionDetected := motion,
    now := n, mono := n }

/-- A demonstration configuration: 5 s hold, 1 minute night check,
1 s snapshot cooldown. -/
def cfgDemo : AutoConfig :=
  { detectionHoldSec := 5, nightCheckSec := 60, saveCooldownSec := 1 }

/-- Configuration used for the warm-up counterexample: 5 s hold, a
1-second night check, 1 s snapshot cooldown. -/
def cfgC3 : AutoConfig :=
  { detectionHoldSec := 5, nightCheckSec := 1, saveCooldownSec := 1 }

/-- Trace prefix for the warm-up counterexample: one day frame, a
first night interval of 30 frames (its OFF fires on the second night
frame), then one day frame returning the gate to day mode.  After
this prefix `frame_idx` is already 30. -/
def c3lead : List Tick :=
  dayT 1 :: ((List.range 30).map (fun i => nightT false (i + 2)) ++ [dayT 32])

/-- Second night interval of the warm-up counterexample: a Day→Night
transition frame, the frame on which the fresh 1-second deadline
expires, and a motion frame — only three night frames after the
transition. -/
def c3night : List Tick :=
  [nightT false 33, nightT false 34, nightT true 35]

/-! ### Work scheduler (`src/src/scheduler/work_scheduler.py`) -/

/-- The `WorkSchedule` dataclass: start/end time of day and the
enabled weekdays (0 = Monday … 6 = Sunday).  The timezone string is
not consulted by any of the logic modelled here. -/
structure WorkSchedule where
  startHour : ℕ
  startMinute : ℕ
  endHour : ℕ
  endMinute : ℕ
  enabledDays : List ℕ
deriving DecidableEq, Repr

/-- A wall-clock instant as consumed by the scheduler: the weekday
(`datetime.weekday()`, 0 = Monday) and the time of day in seconds
(`datetime.time()` compares lexicographically by hour, minute,
second, which coincides with comparing total seconds). -/
structure NowTime where
  weekday : ℕ
  secondsOfDay : ℕ
deriving DecidableEq, Repr

/-- `datetime.time(hour, minute)` as seconds of day. -/
def timeAsSeconds (h m : ℕ) : ℕ := h * 3600 + m * 60

/-- `WorkScheduler.is_work_time` (lines 105–130): weekday gate first,
then the inclusive window, wrapping past midnight when start > end. -/
def is_work_time (sch : WorkSchedule) (now : NowTime) : Bool :=
  if now.weekday ∈ sch.enabledDays then
    let startT := timeAsSeconds sch.startHour sch.startMinute
    let endT := timeAsSeconds sch.endHour sch.endMinute
    if startT ≤ endT then
      decide (startT ≤ now.secondsOfDay ∧ now.secondsOfDay ≤ endT)
    else
      decide (startT ≤ now.secondsOfDay ∨ now.secondsOfDay ≤ endT)
  else false

/-- `WorkScheduler.minutes_until_work_start` (lines 132–150).
`now.hour * 60 + now.minute` is `secondsOfDay / 60`. -/
def minutes_until_work_start (sch : WorkSchedule) (now : NowTime) :
    Option ℕ :=
  if is_work_time sch now then none
  else
    let currentMinutes := now.secondsOfDay / 60
    let startMinutes := sch.startHour * 60 + sch.startMinute
    if currentMinutes < startMinutes then
      some (startMinutes - currentMinutes)
    else
      some (24 * 60 - currentMinutes + startMinutes)

/-- Result of the start callback as observed by the scheduler loop:
it returned `True`, returned a falsy value, or raised (the loop's
`try` swallows the exception). -/
inductive StartOutcome where
  | retTrue
  | retFalse
  | exnStart
deriving DecidableEq, Repr

/-- Result of the stop callback: returned normally or raised. -/
inductive StopOutcome where
  | ret
  | exnStop
deriving DecidableEq, Repr

/-- Which callback a scheduler tick invoked. -/
inductive CallbackCall where
  | startCall
  | stopCall
deriving DecidableEq, Repr

/-- Scheduler state read and written by one poll iteration:
`manual_override`, `services_started`, and the two configuration
flags `auto_start_enabled` / `auto_stop_enabled`. -/
structure SchedulerState where
  manualOverride : Bool
  servicesStarted : Bool
  autoStartEnabled : Bool
  autoStopEnabled : Bool
deriving DecidableEq, Repr

/-- One iteration of `WorkScheduler._scheduler_loop` (lines 187–218):
skip everything under manual override; otherwise run the auto-start
branch or the `elif` auto-stop branch.  A raising callback aborts the
iteration (the surrounding `try` catches it), so a raising start
leaves `services_started` untouched — and so does a raising stop,
since the exception fires before the `services_started = False`
line.  Returns the new state and the callbacks invoked. -/
def schedulerTick (s : SchedulerState) (workTime : Bool)
    (startRes : StartOutcome) (stopRes : StopOutcome) :
    SchedulerState × List CallbackCall :=
  if s.manualOverride = true then (s, [])
  else if workTime = true ∧ s.servicesStarted = false ∧ s.autoStartEnabled = true then
    match startRes with
    | StartOutcome.retTrue =>
      ({ s with servicesStarted := true }, [CallbackCall.startCall])
    | StartOutcome.retFalse => (s, [CallbackCall.startCall])
    | StartOutcome.exnStart => (s, [CallbackCall.startCall])
  else if workTime = false ∧ s.servicesStarted = true ∧ s.autoStopEnabled = true then
    match stopRes with
    | StopOutcome.ret =>
      ({ s with servicesStarted := false }, [CallbackCall.stopCall])
    | StopOutcome.exnStop => (s, [CallbackCall.stopCall])
  else (s, [])

/-! ### Service manager (`src/src/scheduler/service_manager.py`) -/

/-- The `ServiceStatus` enumeration. -/
inductive ServiceStatus where
  | stopped
  | starting
  | running
  | stopping
  | error
deriving DecidableEq, Repr

/-- One entry of `ServiceManager.services`: its status and error
message (the display name and the duck-typed instance handle carry no
lifecycle state). -/
structure ServiceRecord where
  status : ServiceStatus
  errorMessage : Option String
deriving DecidableEq, Repr

/-- A freshly constructed record: `STOPPED`, no error. -/
def initServiceRecord : ServiceRecord :=
  { status := ServiceStatus.stopped, errorMessage := none }

/-- Outcome of the duck-typed start capability invoked inside
`start_service`'s `try`: returned `True`, returned a falsy value, or
raised with a message (an unregistered instance raises
"Service instance not registered"). -/
inductive SvcStartRes where
  | ok
  | fail
  | exn (msg : String)
deriving DecidableEq, Repr

/-- Outcome of the stop capability invoked inside `stop_service`. -/
inductive SvcStopRes where
  | ok
  | exn (msg : String)
deriving DecidableEq, Repr

/-- `ServiceManager.start_service` (lines 67–120) on one record:
no-op returning `True` if already RUNNING; otherwise assign STARTING
(clearing the error message), then RUNNING on success or ERROR with a
message on failure/exception.  The returned list is the sequence of
status values assigned to the record, in order. -/
def recordStart (r : ServiceRecord) (res : SvcStartRes) :
    ServiceRecord × Bool × List ServiceStatus :=
  if r.status = ServiceStatus.running then (r, true, [])
  else
    match res with
    | SvcStartRes.ok =>
      ({ status := ServiceStatus.running, errorMessage := none }, true,
       [ServiceStatus.starting, ServiceStatus.running])
    | SvcStartRes.fail =>
      ({ status := ServiceStatus.error, errorMessage := some "Failed to start" },
       false, [ServiceStatus.starting, ServiceStatus.error])
    | SvcStartRes.exn m =>
      ({ status := ServiceStatus.error, errorMessage := some m }, false,
       [ServiceStatus.starting, ServiceStatus.error])

/-- `ServiceManager.stop_service` (lines 122–161) on one record:
no-op if already STOPPED; otherwise assign STOPPING, then STOPPED on
success (the error message is not cleared) or ERROR on exception. -/
def recordStop (r : ServiceRecord) (res : SvcStopRes) :
    ServiceRecord × List ServiceStatus :=
  if r.status = ServiceStatus.stopped then (r, [])
  else
    match res with
    | SvcStopRes.ok =>
      ({ status := ServiceStatus.stopped, errorMessage := r.errorMessage },
       [ServiceStatus.stopping, ServiceStatus.stopped])
    | SvcStopRes.exn m =>
      ({ status := ServiceStatus.error, errorMessage := some m },
       [ServiceStatus.stopping, ServiceStatus.error])

/-- The three fixed service ids, in the dictionary order of
`ServiceManager.__init__`. -/
inductive ServiceId where
  | camera
  | vibration
  | frying
deriving DecidableEq, Repr

/-- The manager's record table. -/
structure SMState where
  camera : ServiceRecord
  vibration : ServiceRecord
  frying : ServiceRecord
deriving DecidableEq, Repr

/-- `ServiceManager.__init__`: every record STOPPED. -/
def initSMState : SMState :=
  { camera := initServiceRecord, vibration := initServiceRecord,
    frying := initServiceRecord }

/-- Look up one record. -/
def SMState.recordOf (m : SMState) : ServiceId → ServiceRecord
  | ServiceId.camera => m.camera
  | ServiceId.vibration => m.vibration
  | ServiceId.frying => m.frying

/-- Replace one record. -/
def SMState.setRecord (m : SMState) : ServiceId → ServiceRecord → SMState
  | ServiceId.camera, r => { m with camera := r }
  | ServiceId.vibration, r => { m with vibration := r }
  | ServiceId.frying, r => { m with frying := r }

/-- A `ServiceManager` operation together with its environment (the
outcomes of the capability calls it performs).  `startAll`/`stopAll`
iterate the three ids in dictionary order. -/
inductive SMOp where
  | startOne (id : ServiceId) (res : SvcStartRes)
  | stopOne (id : ServiceId) (res : SvcStopRes)
  | startAll (rc rv rf : SvcStartRes)
  | stopAll (rc rv rf : SvcStopRes)
deriving DecidableEq, Repr

/-- Apply one operation to the manager state. -/
def smStep (m : SMState) : SMOp → SMState
  | SMOp.startOne id res => m.setRecord id (recordStart (m.recordOf id) res).1
  | SMOp.stopOne id res => m.setRecord id (recordStop (m.recordOf id) res).1
  | SMOp.startAll rc rv rf =>
    let m := m.setRecord ServiceId.camera (recordStart m.camera rc).1
    let m := m.setRecord ServiceId.vibration (recordStart m.vibration rv).1
    m.setRecord ServiceId.frying (recordStart m.frying rf).1
  | SMOp.stopAll rc rv rf =>
    let m := m.setRecord ServiceId.camera (recordStop m.camera rc).1
    let m := m.setRecord ServiceId.vibration (recordStop m.vibration rv).1
    m.setRecord ServiceId.frying (recordStop m.frying rf).1

/-- Fold a list of operations over the manager state. -/
def smRun (m : SMState) : List SMOp → SMState
  | [] => m
  | op :: ops => smRun (smStep m op) ops

/-- The sequence of status values one operation assigns to the record
of a given id. -/
def smWrites (m : SMState) (id : ServiceId) : SMOp → List ServiceStatus
  | SMOp.startOne id' res =>
    if id = id' then (recordStart (m.recordOf id') res).2.2 else []
  | SMOp.stopOne id' res =>
    if id = id' then (recordStop (m.recordOf id') res).2 else []
  | SMOp.startAll rc rv rf =>
    match id with
    | ServiceId.camera => (recordStart m.camera rc).2.2
    | ServiceId.vibration => (recordStart m.vibration rv).2.2
    | ServiceId.frying => (recordStart m.frying rf).2.2
  | SMOp.stopAll rc rv rf =>
    match id with
    | ServiceId.camera => (recordStop m.camera rc).2
    | ServiceId.vibration => (recordStop m.vibration rv).2
    | ServiceId.frying => (recordStop m.frying rf).2

/-- All status values assigned to the record of `id` over a run, in
order. -/
def smTrace (m : SMState) (id : ServiceId) : List SMOp → List ServiceStatus
  | [] => []
  | op :: ops => smWrites m id op ++ smTrace (smStep m op) id ops

/-- The edge set asserted by the specification:
STOPPED→STARTING→{RUNNING,ERROR} and
RUNNING→STOPPING→{STOPPED,ERROR}. -/
def claimedEdge : ServiceStatus → ServiceStatus → Bool
  | ServiceStatus.stopped, ServiceStatus.starting => true
  | ServiceStatus.starting, ServiceStatus.running => true
  | ServiceStatus.starting, ServiceStatus.error => true
  | ServiceStatus.running, ServiceStatus.stopping => true
  | ServiceStatus.stopping, ServiceStatus.stopped => true
  | ServiceStatus.stopping, ServiceStatus.error => true
  | _, _ => false

/-- The edge set the code actually realizes: the claimed edges plus
recovery from ERROR, which `start_service`/`stop_service` treat like
any non-RUNNING/non-STOPPED state (ERROR→STARTING, ERROR→STOPPING). -/
def observedEdge : ServiceStatus → ServiceStatus → Bool
  | ServiceStatus.error, ServiceStatus.starting => true
  | ServiceStatus.error, ServiceStatus.stopping => true
  | a, b => claimedEdge a b

/-- `chainOK e a l` holds when successive elements of `a :: l` are
all related by the edge predicate `e`. -/
def chainOK (e : ServiceStatus → ServiceStatus → Bool) :
    ServiceStatus → List ServiceStatus → Bool
  | _, [] => true
  | a, b :: l => e a b && chainOK e b l

/-- Statuses at which a record can rest between operations. -/
def restStatus (s : ServiceStatus) : Bool :=
  s = ServiceStatus.stopped || s = ServiceStatus.running ||
    s = ServiceStatus.error

/-! ### Vibration analyzer and detector
(`src/src/monitoring/vibration/vibration_analyzer.py`,
`vibration_detector.py`, reading dataclass from `rs485_sensor.py`).
Sensor values are modelled as rationals. -/

/-- The `VibrationReading` dataclass. -/
structure VibrationReading where
  timestamp : ℚ
  x_axis : ℚ
  y_axis : ℚ
  z_axis : ℚ
  magnitude : ℚ
  temperature : Option ℚ := none
  frequency : Option ℚ := none
deriving DecidableEq, Repr

/-- The `VibrationAlert` dataclass.  The human-readable `message`
field (an f-string over the numeric fields) is not modelled. -/
structure VibrationAlert where
  timestamp : ℚ
  alert_type : String
  severity : String
  magnitude : ℚ
  threshold : ℚ
deriving DecidableEq, Repr

/-- The four ordered alert thresholds. -/
structure AlertThresholds where
  low : ℚ
  medium : ℚ
  high : ℚ
  critical : ℚ
deriving DecidableEq, Repr

/-- The analyzer's mutable state: the five bounded buffers, the alert
log, the shared cooldown bookkeeping, and the counters. -/
structure VibrationAnalyzer where
  window_size : ℕ
  thresholds : AlertThresholds
  magnitude_buffer : List ℚ
  x_buffer : List ℚ
  y_buffer : List ℚ
  z_buffer : List ℚ
  timestamp_buffer : List ℚ
  alerts : List VibrationAlert
  last_alert_time : ℚ
  alert_cooldown : ℚ
  total_samples : ℕ
  start_time : ℚ
deriving DecidableEq, Repr

/-- `VibrationAnalyzer.__init__` with the default thresholds and the
fixed 5-second cooldown. -/
def initAnalyzer (windowSize : ℕ) (th : AlertThresholds) (now : ℚ) :
    VibrationAnalyzer :=
  { window_size := windowSize, thresholds := th,
    magnitude_buffer := [], x_buffer := [], y_buffer := [], z_buffer := [],
    timestamp_buffer := [], alerts := [], last_alert_time := 0,
    alert_cooldown := 5, total_samples := 0, start_time := now }

/-- `deque(maxlen=cap).append(x)`: append on the right, evicting from
the left once the capacity is exceeded. -/
def appendEvict (cap : ℕ) (l : List ℚ) (x : ℚ) : List ℚ :=
  let l2 := l ++ [x]
  if cap < l2.length then l2.drop (l2.length - cap) else l2

/-- The severity ladder of `_check_thresholds` (lines 148–167):
highest band first. -/
def severityOf (th : AlertThresholds) (mag : ℚ) : Option (String × ℚ) :=
  if th.critical ≤ mag then some ("critical", th.critical)
  else if th.high ≤ mag then some ("high", th.high)
  else if th.medium ≤ mag then some ("medium", th.medium)
  else if th.low ≤ mag then some ("low", th.low)
  else none

/-- `VibrationAnalyzer._check_thresholds`: append a threshold alert
when a band is met and the cooldown has elapsed. -/
def VibrationAnalyzer.checkThresholds (a : VibrationAnalyzer)
    (r : VibrationReading) : VibrationAnalyzer :=
  match severityOf a.thresholds r.magnitude with
  | none => a
  | some (sev, thr) =>
    if a.alert_cooldown < r.timestamp - a.last_alert_time then
      { a with
        alerts := a.alerts ++
          [{ timestamp := r.timestamp, alert_type := "threshold",
             severity := sev, magnitude := r.magnitude, threshold := thr }],
        last_alert_time := r.timestamp }
    else a

/-- `VibrationAnalyzer._check_spike` (lines 185–207): with at least
10 buffered magnitudes (the current one included, since `add_reading`
appends before checking), alert when the current magnitude exceeds
three times the mean of the others and that mean exceeds 0.1, subject
to the same shared cooldown. -/
def VibrationAnalyzer.checkSpike (a : VibrationAnalyzer)
    (r : VibrationReading) : VibrationAnalyzer :=
  if a.magnitude_buffer.length < 10 then a
  else
    let recent := a.magnitude_buffer.dropLast
    let recentAvg := recent.sum / (recent.length : ℚ)
    if recentAvg * 3 < r.magnitude ∧ (1 / 10 : ℚ) < recentAvg then
      if a.alert_cooldown < r.timestamp - a.last_alert_time then
        { a with
          alerts := a.alerts ++
            [{ timestamp := r.timestamp, alert_type := "spike",
               severity := "high", magnitude := r.magnitude,
               threshold := recentAvg * 3 }],
          last_alert_time := r.timestamp }
      else a
    else a

/-- `VibrationAnalyzer.add_reading` (lines 97–113): append to the
five buffers, bump the sample counter, then run the threshold and
spike checks. -/
def VibrationAnalyzer.add_reading (a : VibrationAnalyzer)
    (r : VibrationReading) : VibrationAnalyzer :=
  let a :=
    { a with
      magnitude_buffer := appendEvict a.window_size a.magnitude_buffer r.magnitude,
      x_buffer := appendEvict a.window_size a.x_buffer r.x_axis,
      y_buffer := appendEvict a.window_size a.y_buffer r.y_axis,
      z_buffer := appendEvict a.window_size a.z_buffer r.z_axis,
      timestamp_buffer := appendEvict a.window_size a.timestamp_buffer r.timestamp,
      total_samples := a.total_samples + 1 }
  (a.checkThresholds r).checkSpike r

/-- `VibrationAnalyzer.reset` (lines 273–283): clear the five buffers
and the alert log, zero the sample counter, restart the uptime clock.
`last_alert_time` is (faithfully) not cleared. -/
def VibrationAnalyzer.reset (a : VibrationAnalyzer) (now : ℚ) :
    VibrationAnalyzer :=
  { a with magnitude_buffer := [], x_buffer := [], y_buffer := [],
           z_buffer := [], timestamp_buffer := [], alerts := [],
           total_samples := 0, start_time := now }

/-- Largest element of a list (0 for the empty list, which the
callers below never pass). -/
def listMax : List ℚ → ℚ
  | [] => 0
  | x :: xs => xs.foldl max x

/-- Smallest element of a list. -/
def listMin : List ℚ → ℚ
  | [] => 0
  | x :: xs => xs.foldl min x

/-- The `VibrationStats` dataclass.  `np.std` and the RMS involve a
square root, which has no exact rational value, so those two fields
are carried as their squares (`std_deviation²`, `rms_value²`); the
square is an order isomorphism on the nonnegative values the source
produces. -/
structure VibrationStats where
  mean_magnitude : ℚ
  max_magnitude : ℚ
  min_magnitude : ℚ
  std_deviation_sq : ℚ
  rms_value_sq : ℚ
  peak_to_peak : ℚ
  sample_count : ℕ
  duration_seconds : ℚ
deriving DecidableEq, Repr

/-- `VibrationAnalyzer.get_current_stats` (lines 115–146): `None`
below 2 samples, otherwise the windowed statistics. -/
def VibrationAnalyzer.get_current_stats (a : VibrationAnalyzer) :
    Option VibrationStats :=
  if a.magnitude_buffer.length < 2 then none
  else
    let l := a.magnitude_buffer
    let n : ℚ := l.length
    let meanMag := l.sum / n
    let maxMag := listMax l
    let minMag := listMin l
    some
      { mean_magnitude := meanMag
        max_magnitude := maxMag
        min_magnitude := minMag
        std_deviation_sq := ((l.map (fun x => (x - meanMag) ^ 2)).sum) / n
        rms_value_sq := ((l.map (fun x => x ^ 2)).sum) / n
        peak_to_peak := maxMag - minMag
        sample_count := l.length
        duration_seconds :=
          a.timestamp_buffer.getLastD 0 - a.timestamp_buffer.headD 0 }

/-- Per-axis statistics of `get_axis_stats` (squares for std/rms as
in `VibrationStats`). -/
structure AxisStats where
  mean : ℚ
  max : ℚ
  min : ℚ
  std_sq : ℚ
  rms_sq : ℚ
deriving DecidableEq, Repr

/-- The `axis_stats` helper inside `get_axis_stats`. -/
def axisStatsOf (l : List ℚ) : AxisStats :=
  let n : ℚ := l.length
  let meanV := l.sum / n
  { mean := meanV, max := listMax l, min := listMin l,
    std_sq := ((l.map (fun x => (x - meanV) ^ 2)).sum) / n,
    rms_sq := ((l.map (fun x => x ^ 2)).sum) / n }

/-- `VibrationAnalyzer.get_axis_stats` (lines 213–232): the empty
dictionary below 2 samples is modelled as `none`. -/
def VibrationAnalyzer.get_axis_stats (a : VibrationAnalyzer) :
    Option (AxisStats × AxisStats × AxisStats) :=
  if a.x_buffer.length < 2 then none
  else some (axisStatsOf a.x_buffer, axisStatsOf a.y_buffer,
             axisStatsOf a.z_buffer)

/-- Least-squares slope of `np.polyfit(range(n), ys, 1)` in exact
rational arithmetic. -/
def lineFitSlope (ys : List ℚ) : ℚ :=
  let n : ℚ := ys.length
  let xs := (List.range ys.length).map (fun i => (i : ℚ))
  let sx := xs.sum
  let sy := ys.sum
  let sxy := ((xs.zip ys).map (fun p => p.1 * p.2)).sum
  let sxx := (xs.map (fun x => x * x)).sum
  (n * sxy - sx * sy) / (n * sxx - sx * sx)

/-- `VibrationAnalyzer.get_trend` (lines 234–258) with the default
`samples = 20`. -/
def VibrationAnalyzer.get_trend (a : VibrationAnalyzer)
    (samples : ℕ := 20) : String :=
  if a.magnitude_buffer.length < samples then "insufficient_data"
  else
    let recent := a.magnitude_buffer.drop (a.magnitude_buffer.length - samples)
    let slope := lineFitSlope recent
    if |slope| < 1 / 100 then "stable"
    else if 0 < slope then "increasing"
    else "decreasing"

/-- `VibrationAnalyzer.is_abnormal` (lines 260–271): any of the last
5 buffered magnitudes at or above the medium threshold. -/
def VibrationAnalyzer.is_abnormal (a : VibrationAnalyzer) : Bool :=
  let recent := a.magnitude_buffer.drop (a.magnitude_buffer.length - 5)
  recent.any (fun m => a.thresholds.medium ≤ m)

/-- `VibrationAnalyzer.get_recent_alerts`: `alerts[-count:]`. -/
def VibrationAnalyzer.get_recent_alerts (a : VibrationAnalyzer)
    (count : ℕ := 10) : List VibrationAlert :=
  a.alerts.drop (a.alerts.length - count)

/-- The content of `export_stats_json` (lines 285–302), as structured
data rather than a JSON string. -/
structure StatsExport where
  overall_stats : Option VibrationStats
  axis_stats : Option (AxisStats × AxisStats × AxisStats)
  trend : String
  is_abnormal : Bool
  total_samples : ℕ
  uptime_seconds : ℚ
  recent_alerts : List VibrationAlert
  alert_thresholds : AlertThresholds
deriving DecidableEq, Repr

/-- `VibrationAnalyzer.export_stats_json` evaluated at wall-clock
time `now`. -/
def VibrationAnalyzer.export_stats (a : VibrationAnalyzer) (now : ℚ) :
    StatsExport :=
  { overall_stats := a.get_current_stats
    axis_stats := a.get_axis_stats
    trend := a.get_trend
    is_abnormal := a.is_abnormal
    total_samples := a.total_samples
    uptime_seconds := now - a.start_time
    recent_alerts := a.get_recent_alerts
    alert_thresholds := a.thresholds }

/-- Detector state (`VibrationDetector`): sensor connectivity, the
monitoring flags, the current session, and the owned analyzer. -/
structure VibrationDetector where
  sensorConnected : Bool
  is_monitoring : Bool
  is_running : Bool
  session_id : Option String
  session_start_time : Option ℚ
  analyzer : VibrationAnalyzer
  latest_reading : Option VibrationReading
deriving DecidableEq, Repr

/-- The session summary JSON written by `_save_session_summary`
(lines 216–235).  The opaque `sensor_config` dictionary is not
modelled. -/
structure SessionSummary where
  session_id : String
  start_time : Option ℚ
  end_time : ℚ
  duration_seconds : ℚ
  statistics : StatsExport
deriving DecidableEq, Repr

/-- `VibrationDetector.start_monitoring` (lines 97–135): refuse when
already monitoring or the sensor is absent; otherwise open a session,
reset the analyzer, and raise the flags. -/
def VibrationDetector.start_monitoring (d : VibrationDetector)
    (name : String) (now : ℚ) : VibrationDetector × Bool :=
  if d.is_monitoring = true then (d, false)
  else if d.sensorConnected = false then (d, false)
  else
    ({ d with session_id := some name, session_start_time := some now,
              analyzer := d.analyzer.reset now,
              is_monitoring := true, is_running := true }, true)

/-- One `_monitoring_loop` iteration with a successful sensor read:
record the latest reading and feed the analyzer. -/
def VibrationDetector.readingTick (d : VibrationDetector)
    (r : VibrationReading) : VibrationDetector :=
  { d with latest_reading := some r, analyzer := d.analyzer.add_reading r }

/-- The summary `_save_session_summary` assembles for session `sid`
at time `now` (duration honours Python truthiness: a `None` — or
exactly-zero — start time yields 0). -/
def mkSessionSummary (d : VibrationDetector) (now : ℚ) (sid : String) :
    SessionSummary :=
  { session_id := sid
    start_time := d.session_start_time
    end_time := now
    duration_seconds :=
      match d.session_start_time with
      | some st => if st = 0 then 0 else now - st
      | none => 0
    statistics := d.analyzer.export_stats now }

/-- `VibrationDetector.stop_monitoring` (lines 201–214): no-op unless
monitoring; otherwise lower the flags (the loop thread observes
`is_running = False` and clears `is_monitoring`) and write the
session summary.  The analyzer is left untouched. -/
def VibrationDetector.stop_monitoring (d : VibrationDetector) (now : ℚ) :
    VibrationDetector × Option SessionSummary :=
  if d.is_monitoring = false then (d, none)
  else
    let d2 := { d with is_running := false, is_monitoring := false }
    match d.session_id with
    | none => (d2, none)
    | some sid => (d2, some (mkSessionSummary d now sid))

/-- Default thresholds of the source. -/
def defaultThresholds : AlertThresholds :=
  { low := 2, medium := 5, high := 10, critical := 20 }

/-- A fresh detector with a connected sensor and the default
analyzer. -/
def demoDetector : VibrationDetector :=
  { sensorConnected := true, is_monitoring := false, is_running := false,
    session_id := none, session_start_time := none,
    analyzer := initAnalyzer 100 defaultThresholds 0,
    latest_reading := none }

/-- A mild reading (magnitude 1, below every band). -/
def demoReading : VibrationReading :=
  { timestamp := 1, x_axis := 1, y_axis := 1, z_axis := 1, magnitude := 1 }

/-! ### CSV row formatting (`VibrationDetector._log_reading`,
lines 172–189) -/

/-- Fixed-point decimal formatting composed with exact re-parsing:
`f"{q:.k f}"` renders the nearest `k`-decimal value, and parsing the
decimal string back is exact, so the round trip is quantization to
`k` decimal places.  (`round` here resolves exact ties upward where
Python resolves them to even; both are round-to-nearest, so the
half-ulp error bound and the counterexamples below are unaffected.) -/
def fixDecimal (k : ℕ) (q : ℚ) : ℚ :=
  ((round (q * 10 ^ k) : ℤ) : ℚ) / 10 ^ k

/-- Python truthiness applied to an optional field, as in
`reading.temperature if reading.temperature else ''`: both `None` and
`0.0` render as the empty string (`none`). -/
def optTruthy (v : Option ℚ) : Option ℚ :=
  match v with
  | none => none
  | some x => if x = 0 then none else some x

/-- One parsed CSV data row: the five numeric fields exactly as they
survive formatting and re-parsing, and the two optional fields
(`none` for an empty string). -/
structure CsvRow where
  timestampF : ℚ
  elapsedF : ℚ
  x_axisF : ℚ
  y_axisF : ℚ
  z_axisF : ℚ
  magnitudeF : ℚ
  temperatureF : Option ℚ
  frequencyF : Option ℚ
deriving DecidableEq, Repr

/-- `_log_reading`: timestamp and elapsed time with 3 decimal places
(`:.3f`), the four axis/magnitude values with 6 (`:.6f`), and the
truthiness-gated optional fields. -/
def log_reading (startTime : ℚ) (r : VibrationReading) : CsvRow :=
  { timestampF := fixDecimal 3 r.timestamp
    elapsedF := fixDecimal 3 (r.timestamp - startTime)
    x_axisF := fixDecimal 6 r.x_axis
    y_axisF := fixDecimal 6 r.y_axis
    z_axisF := fixDecimal 6 r.z_axis
    magnitudeF := fixDecimal 6 r.magnitude
    temperatureF := optTruthy r.temperature
    frequencyF := optTruthy r.frequency }

/-- The reading used in the round-trip counterexample: its timestamp
1.0004 is not representable with 3 decimal places. -/
def cexReading : VibrationReading :=
  { timestamp := 10004 / 10000, x_axis := 0, y_axis := 0, z_axis := 0,
    magnitude := 0 }

/-- The window `08:30–19:00`, all weekdays enabled. -/
def sch0830 : WorkSchedule :=
  { startHour := 8, startMinute := 30, endHour := 19, endMinute := 0,
    enabledDays := [0, 1, 2, 3, 4, 5, 6] }

/-- The overnight window `22:00–06:00`, all weekdays enabled. -/
def sch2200 : WorkSchedule :=
  { startHour := 22, startMinute := 0, endHour := 6, endMinute := 0,
    enabledDays := [0, 1, 2, 3, 4, 5, 6] }

/-- The window `08:30–19:00` enabled Monday through Friday only. -/
def schWeekdays : WorkSchedule :=
  { startHour := 8, startMinute := 30, endHour := 19, endMinute := 0,
    enabledDays := [0, 1, 2, 3, 4] }

/-- A night-stage-1 state whose no-person deadline is 5. -/
def sC2 : AutoState :=
  { onTriggered := false, detHoldStart := none, nightCheckActive := true,
    nightDeadline := some 5, offTriggeredOnce := false,
    prevDaytime := some false, lastSnapshotTick := none, frameIdx := 0,
    yoloFrameSkip := 0 }

/-- Six consecutive person-present day frames; with a 5-second hold
the sixth (second YOLO-processed) frame fires the ON publish. -/
def demoDayTrace : List Tick :=
  [personT 0, personT 1, personT 2, personT 10, personT 11, personT 12]

/-- The detector after `start_monitoring` at time 0. -/
def demoRun1 : VibrationDetector :=
  (demoDetector.start_monitoring "session" 0).1

/-- The detector after one monitoring-loop reading. -/
def demoRun2 : VibrationDetector :=
  demoRun1.readingTick demoReading

theorem runAuto_append (cfg : AutoConfig) (s : AutoState)
    (l₁ l₂ : List Tick) :
    runAuto cfg s (l₁ ++ l₂) = runAuto cfg (runAuto cfg s l₁) l₂ := by
  induction l₁ generalizing s with
  | nil => rfl
  | cons t ts ih => simp [runAuto, ih]

theorem autoOutputs_append (cfg : AutoConfig) (s : AutoState)
    (l₁ l₂ : List Tick) :
    autoOutputs cfg s (l₁ ++ l₂) =
      autoOutputs cfg s l₁ ++ autoOutputs cfg (runAuto cfg s l₁) l₂ := by
  induction l₁ generalizing s with
  | nil => rfl
  | cons t ts ih => simp [autoOutputs, runAuto, ih]

theorem amt_prev (cfg : AutoConfig) (s : AutoState) (t : Tick) :
    (applyModeTransitions cfg s t).prevDaytime = some t.daytime := rfl

theorem amt_skip (cfg : AutoConfig) (s : AutoState) (t : Tick) :
    (applyModeTransitions cfg s t).yoloFrameSkip = s.yoloFrameSkip := by
  obtain ⟨o, dh, nc, nd, ot, pd, ls, fi, ys⟩ := s
  cases pd with
  | none => simp only [applyModeTransitions]; split_ifs <;> rfl
  | some b =>
    cases b <;> (simp only [applyModeTransitions]; split_ifs <;> rfl)

theorem amt_frameIdx (cfg : AutoConfig) (s : AutoState) (t : Tick) :
    (applyModeTransitions cfg s t).frameIdx = s.frameIdx := by
  obtain ⟨o, dh, nc, nd, ot, pd, ls, fi, ys⟩ := s
  cases pd with
  | none => simp only [applyModeTransitions]; split_ifs <;> rfl
  | some b =>
    cases b <;> (simp only [applyModeTransitions]; split_ifs <;> rfl)

theorem amt_hold_some (cfg : AutoConfig) (s : AutoState) (t : Tick)
    (x : ℕ) (h : (applyModeTransitions cfg s t).detHoldStart = some x) :
    s.detHoldStart = some x := by
  obtain ⟨o, dh, nc, nd, ot, pd, ls, fi, ys⟩ := s
  cases pd with
  | none =>
    simp only [applyModeTransitions] at h
    split_ifs at h <;> simp_all
  | some b =>
    cases b <;> simp only [applyModeTransitions] at h <;>
      split_ifs at h <;> simp_all

theorem amt_day_stable (cfg : AutoConfig) (s : AutoState) (t : Tick)
    (hd : t.daytime = true) (hp : s.prevDaytime = some true) :
    applyModeTransitions cfg s t = s := by
  obtain ⟨o, dh, nc, nd, ot, pd, ls, fi, ys⟩ := s
  simp only at hp
  subst hp
  simp [applyModeTransitions, hd]

theorem amt_night_stable (cfg : AutoConfig) (s : AutoState) (t : Tick)
    (hd : t.daytime = false) (hp : s.prevDaytime = some false) :
    applyModeTransitions cfg s t = s := by
  obtain ⟨o, dh, nc, nd, ot, pd, ls, fi, ys⟩ := s
  simp only at hp
  subst hp
  simp [applyModeTransitions, hd]

theorem processDay_preserved (cfg : AutoConfig) (s : AutoState) (t : Tick) :
    (processDayMode cfg s t).1.prevDaytime = s.prevDaytime ∧
    (processDayMode cfg s t).1.nightCheckActive = s.nightCheckActive ∧
    (processDayMode cfg s t).1.nightDeadline = s.nightDeadline ∧
    (processDayMode cfg s t).1.offTriggeredOnce = s.offTriggeredOnce ∧
    (processDayMode cfg s t).1.frameIdx = s.frameIdx ∧
    (processDayMode cfg s t).1.lastSnapshotTick = s.lastSnapshotTick := by
  simp only [processDayMode]
  repeat' split
  all_goals simp

theorem processNight_preserved (cfg : AutoConfig) (s : AutoState) (t : Tick) :
    (processNightMode cfg s t).1.detHoldStart = s.detHoldStart ∧
    (processNightMode cfg s t).1.onTriggered = s.onTriggered ∧
    (processNightMode cfg s t).1.yoloFrameSkip = s.yoloFrameSkip ∧
    (processNightMode cfg s t).1.prevDaytime = s.prevDaytime ∧
    (processNightMode cfg s t).1.frameIdx = s.frameIdx + 1 := by
  simp only [processNightMode]
  repeat' split
  all_goals simp

theorem processDay_skip_val (cfg : AutoConfig) (s : AutoState) (t : Tick) :
    (processDayMode cfg s t).1.yoloFrameSkip =
      if s.yoloFrameSkip + 1 < 3 then s.yoloFrameSkip + 1 else 0 := by
  simp only [processDayMode]
  repeat' split
  all_goals simp_all

theorem processDay_emit (cfg : AutoConfig) (s : AutoState) (t : Tick)
    (h : (processDayMode cfg s t).2 = some Action.powerOn) :
    ¬s.yoloFrameSkip + 1 < 3 ∧ t.personDetected = true ∧
    s.onTriggered = false ∧
    (processDayMode cfg s t).1.onTriggered = true ∧
    ∃ t0, s.detHoldStart = some t0 ∧ t0 + cfg.detectionHoldSec ≤ t.now := by
  simp only [processDayMode] at h ⊢
  cases hd : s.detHoldStart <;>
    (simp only [hd] at h ⊢; split_ifs at h ⊢ <;> simp_all)

theorem processDay_onTriggered_mono (cfg : AutoConfig) (s : AutoState)
    (t : Tick) (h : s.onTriggered = true) :
    (processDayMode cfg s t).1.onTriggered = true ∧
    (processDayMode cfg s t).2 = none := by
  simp only [processDayMode]
  repeat' split
  all_goals simp_all

theorem processDay_out (cfg : AutoConfig) (s : AutoState) (t : Tick) :
    (processDayMode cfg s t).2 = none ∨
    (processDayMode cfg s t).2 = some Action.powerOn := by
  simp only [processDayMode]
  repeat' split
  all_goals simp

theorem processNight_out (cfg : AutoConfig) (s : AutoState) (t : Tick) :
    (processNightMode cfg s t).2 = none ∨
    (processNightMode cfg s t).2 = some Action.powerOff ∨
    (processNightMode cfg s t).2 = some Action.saveSnapshot := by
  simp only [processNightMode]
  repeat' split
  all_goals simp

theorem processNight_emit_off (cfg : AutoConfig) (s : AutoState) (t : Tick)
    (h : (processNightMode cfg s t).2 = some Action.powerOff) :
    (processNightMode cfg s t).1.nightCheckActive = false ∧
    (processNightMode cfg s t).1.offTriggeredOnce = true ∧
    s.nightCheckActive = true ∧ s.offTriggeredOnce = false := by
  simp only [processNightMode] at h ⊢
  repeat' split at h
  all_goals simp_all

theorem processNight_inactive (cfg : AutoConfig) (s : AutoState) (t : Tick)
    (h : s.nightCheckActive = false) :
    (processNightMode cfg s t).2 ≠ some Action.powerOff ∧
    (processNightMode cfg s t).1.nightCheckActive = false ∧
    (processNightMode cfg s t).1.offTriggeredOnce = s.offTriggeredOnce := by
  simp only [processNightMode]
  repeat' split
  all_goals simp_all

theorem processNight_off_cases (cfg : AutoConfig) (s : AutoState)
    (t : Tick) :
    (processNightMode cfg s t).2 = some Action.powerOff ∨
    (processNightMode cfg s t).1.offTriggeredOnce = s.offTriggeredOnce := by
  simp only [processNightMode]
  repeat' split
  all_goals simp

theorem processNight_emit_snap (cfg : AutoConfig) (s : AutoState) (t : Tick)
    (h : (processNightMode cfg s t).2 = some Action.saveSnapshot) :
    s.nightCheckActive = false ∧ WARMUP_FRAMES < s.frameIdx + 1 ∧
    t.motionDetected = true := by
  simp only [processNightMode] at h ⊢
  repeat' split at h
  all_goals simp_all

theorem step_day_eq (cfg : AutoConfig) (s : AutoState) (t : Tick)
    (hd : t.daytime = true) :
    updateAutoSystem cfg s t =
      processDayMode cfg (applyModeTransitions cfg s t) t := by
  unfold updateAutoSystem
  rw [hd]
  rfl

theorem step_night_eq (cfg : AutoConfig) (s : AutoState) (t : Tick)
    (hd : t.daytime = false) :
    updateAutoSystem cfg s t =
      processNightMode cfg (applyModeTransitions cfg s t) t := by
  unfold updateAutoSystem
  rw [hd]
  rfl

theorem step_prev (cfg : AutoConfig) (s : AutoState) (t : Tick) :
    (updateAutoSystem cfg s t).1.prevDaytime = some t.daytime := by
  cases hd : t.daytime
  · rw [step_night_eq cfg s t hd, (processNight_preserved cfg _ t).2.2.2.1,
      amt_prev, hd]
  · rw [step_day_eq cfg s t hd, (processDay_preserved cfg _ t).1, amt_prev, hd]

theorem step_skip (cfg : AutoConfig) (s : AutoState) (t : Tick) :
    (updateAutoSystem cfg s t).1.yoloFrameSkip =
      if t.daytime = true then
        (if s.yoloFrameSkip + 1 < 3 then s.yoloFrameSkip + 1 else 0)
      else s.yoloFrameSkip := by
  cases hd : t.daytime
  · rw [step_night_eq cfg s t hd, (processNight_preserved cfg _ t).2.2.1,
      amt_skip]
    simp
  · rw [step_day_eq cfg s t hd, processDay_skip_val, amt_skip]
    simp

theorem step_frameIdx (cfg : AutoConfig) (s : AutoState) (t : Tick) :
    (updateAutoSystem cfg s t).1.frameIdx =
      if t.daytime = true then s.frameIdx else s.frameIdx + 1 := by
  cases hd : t.daytime
  · rw [step_night_eq cfg s t hd, (processNight_preserved cfg _ t).2.2.2.2,
      amt_frameIdx]
    simp
  · rw [step_day_eq cfg s t hd, (processDay_preserved cfg _ t).2.2.2.2.1,
      amt_frameIdx]
    simp

theorem dayTickCount_cons (t : Tick) (ts : List Tick) :
    dayTickCount (t :: ts) =
      dayTickCount ts + if t.daytime = true then 1 else 0 := by
  simp [dayTickCount, List.countP_cons]

theorem nightTickCount_cons (t : Tick) (ts : List Tick) :
    nightTickCount (t :: ts) =
      nightTickCount ts + if t.daytime = true then 0 else 1 := by
  cases hd : t.daytime <;> simp [nightTickCount, List.countP_cons, hd]

theorem runAuto_skip (cfg : AutoConfig) :
    ∀ (ts : List Tick) (s : AutoState), s.yoloFrameSkip < 3 →
      (runAuto cfg s ts).yoloFrameSkip =
        (s.yoloFrameSkip + dayTickCount ts) % 3 := by
  intro ts
  induction ts with
  | nil =>
    intro s h
    simp only [runAuto, dayTickCount, List.countP_nil]
    omega
  | cons t ts ih =>
    intro s h
    rw [runAuto]
    have hstep := step_skip cfg s t
    have hlt : (updateAutoSystem cfg s t).1.yoloFrameSkip < 3 := by
      rw [hstep]; split_ifs <;> omega
    rw [ih _ hlt, hstep, dayTickCount_cons]
    split_ifs <;> omega

theorem runAuto_frameIdx (cfg : AutoConfig) :
    ∀ (ts : List Tick) (s : AutoState),
      (runAuto cfg s ts).frameIdx = s.frameIdx + nightTickCount ts := by
  intro ts
  induction ts with
  | nil =>
    intro s
    simp [runAuto, nightTickCount]
  | cons t ts ih =>
    intro s
    rw [runAuto, ih, step_frameIdx, nightTickCount_cons]
    split_ifs <;> omega

theorem step_powerOn_emit (cfg : AutoConfig) (s : AutoState) (t : Tick)
    (h : (updateAutoSystem cfg s t).2 = some Action.powerOn) :
    t.daytime = true ∧ t.personDetected = true ∧
    (applyModeTransitions cfg s t).onTriggered = false ∧
    ¬(applyModeTransitions cfg s t).yoloFrameSkip + 1 < 3 ∧
    (updateAutoSystem cfg s t).1.onTriggered = true ∧
    (updateAutoSystem cfg s t).1.prevDaytime = some true ∧
    ∃ t0, (applyModeTransitions cfg s t).detHoldStart = some t0 ∧
      t0 + cfg.detectionHoldSec ≤ t.now := by
  cases hd : t.daytime
  · rw [step_night_eq cfg s t hd] at h
    rcases processNight_out cfg (applyModeTransitions cfg s t) t with h' | h' | h' <;>
      simp [h'] at h
  · rw [step_day_eq cfg s t hd] at h
    obtain ⟨h1, h2, h3, h4, h5⟩ := processDay_emit cfg _ t h
    refine ⟨rfl, h2, h3, h1, ?_, ?_, h5⟩
    · rw [step_day_eq cfg s t hd]; exact h4
    · rw [step_prev, hd]

theorem step_powerOff_emit (cfg : AutoConfig) (s : AutoState) (t : Tick)
    (h : (updateAutoSystem cfg s t).2 = some Action.powerOff) :
    t.daytime = false ∧
    (updateAutoSystem cfg s t).1.nightCheckActive = false ∧
    (updateAutoSystem cfg s t).1.prevDaytime = some false ∧
    (applyModeTransitions cfg s t).nightCheckActive = true ∧
    (applyModeTransitions cfg s t).offTriggeredOnce = false := by
  cases hd : t.daytime
  · rw [step_night_eq cfg s t hd] at h
    obtain ⟨h1, h2, h3, h4⟩ := processNight_emit_off cfg _ t h
    refine ⟨rfl, ?_, ?_, h3, h4⟩
    · rw [step_night_eq cfg s t hd]; exact h1
    · rw [step_prev, hd]
  · rw [step_day_eq cfg s t hd] at h
    rcases processDay_out cfg (applyModeTransitions cfg s t) t with h' | h' <;>
      simp [h'] at h

theorem step_snap_emit (cfg : AutoConfig) (s : AutoState) (t : Tick)
    (h : (updateAutoSystem cfg s t).2 = some Action.saveSnapshot) :
    t.daytime = false ∧
    (applyModeTransitions cfg s t).nightCheckActive = false ∧
    WARMUP_FRAMES < (applyModeTransitions cfg s t).frameIdx + 1 ∧
    t.motionDetected = true := by
  cases hd : t.daytime
  · rw [step_night_eq cfg s t hd] at h
    obtain ⟨h1, h2, h3⟩ := processNight_emit_snap cfg _ t h
    exact ⟨rfl, h1, h2, h3⟩
  · rw [step_day_eq cfg s t hd] at h
    rcases processDay_out cfg (applyModeTransitions cfg s t) t with h' | h' <;>
      simp [h'] at h

theorem day_zero_powerOn (cfg : AutoConfig) :
    ∀ (mid : List Tick) (s : AutoState), (∀ t ∈ mid, t.daytime = true) →
      s.onTriggered = true → s.prevDaytime = some true →
      countAct Action.powerOn (autoOutputs cfg s mid) = 0 := by
  intro mid
  induction mid with
  | nil => intro s _ _ _; simp [autoOutputs, countAct]
  | cons t ts ih =>
    intro s hall hon hprev
    have hd : t.daytime = true := hall t (by simp)
    have hamt := amt_day_stable cfg s t hd hprev
    have hstep : updateAutoSystem cfg s t = processDayMode cfg s t := by
      rw [step_day_eq cfg s t hd, hamt]
    have hmono := processDay_onTriggered_mono cfg s t hon
    have hprev' : (processDayMode cfg s t).1.prevDaytime = some true := by
      rw [(processDay_preserved cfg s t).1, hprev]
    rw [autoOutputs, countAct, List.count_cons, hstep]
    have hrest := ih (processDayMode cfg s t).1 (fun u hu => hall u (by simp [hu]))
      hmono.1 hprev'
    rw [countAct] at hrest
    rw [hrest, hmono.2]
    simp

theorem day_atMostOne_powerOn (cfg : AutoConfig) :
    ∀ (mid : List Tick) (s : AutoState), (∀ t ∈ mid, t.daytime = true) →
      countAct Action.powerOn (autoOutputs cfg s mid) ≤ 1 := by
  intro mid
  induction mid with
  | nil => intro s _; simp [autoOutputs, countAct]
  | cons t ts ih =>
    intro s hall
    rw [autoOutputs, countAct, List.count_cons]
    simp only [beq_iff_eq]
    by_cases hemit : (updateAutoSystem cfg s t).2 = some Action.powerOn
    · obtain ⟨-, -, -, -, hon, hprev, -⟩ := step_powerOn_emit cfg s t hemit
      have hz := day_zero_powerOn cfg ts (updateAutoSystem cfg s t).1
        (fun u hu => hall u (by simp [hu])) hon hprev
      rw [countAct] at hz
      rw [hz, hemit]
      simp
    · have hle := ih (updateAutoSystem cfg s t).1
        (fun u hu => hall u (by simp [hu]))
      rw [countAct] at hle
      rw [if_neg hemit]
      simpa using hle

theorem runAuto_single (cfg : AutoConfig) (s : AutoState) (u : Tick) :
    runAuto cfg s [u] = (updateAutoSystem cfg s u).1 := rfl

theorem amt_hold_first (cfg : AutoConfig) (s : AutoState) (t : Tick)
    (hp : s.prevDaytime = none) :
    (applyModeTransitions cfg s t).detHoldStart = s.detHoldStart := by
  obtain ⟨o, dh, nc, nd, ot, pd, ls, fi, ys⟩ := s
  simp only at hp
  subst hp
  cases ht : t.daytime <;> simp [applyModeTransitions, ht]

theorem amt_d2n_hold (cfg : AutoConfig) (s : AutoState) (t : Tick)
    (hp : s.prevDaytime = some true) (hd : t.daytime = false) :
    (applyModeTransitions cfg s t).detHoldStart = none := by
  obtain ⟨o, dh, nc, nd, ot, pd, ls, fi, ys⟩ := s
  simp only at hp
  subst hp
  simp [applyModeTransitions, hd]

theorem amt_n2d_hold (cfg : AutoConfig) (s : AutoState) (t : Tick)
    (hp : s.prevDaytime = some false) (hd : t.daytime = true) :
    (applyModeTransitions cfg s t).detHoldStart = none := by
  obtain ⟨o, dh, nc, nd, ot, pd, ls, fi, ys⟩ := s
  simp only at hp
  subst hp
  simp [applyModeTransitions, hd]

theorem snoc_eq_append_cons {α : Type} {l₁ mid₁ mid₂ : List α} {a u : α}
    (h : l₁ ++ [a] = mid₁ ++ u :: mid₂) :
    (mid₂ = [] ∧ u = a ∧ mid₁ = l₁) ∨
    ∃ mid₂', mid₂ = mid₂' ++ [a] ∧ l₁ = mid₁ ++ u :: mid₂' := by
  rcases List.append_eq_append_iff.mp h with ⟨a', ha1, ha2⟩ | ⟨c', hc1, hc2⟩
  · cases a' with
    | nil =>
      simp only [List.append_nil] at ha1
      simp only [List.nil_append] at ha2
      injection ha2 with h1 h2
      exact Or.inl ⟨h2.symm, h1.symm, ha1⟩
    | cons x xs =>
      exfalso
      have := congrArg List.length ha2
      simp at this
  · cases c' with
    | nil =>
      simp only [List.append_nil] at hc1
      simp only [List.nil_append] at hc2
      injection hc2 with h1 h2
      exact Or.inl ⟨h2, h1, hc1.symm⟩
    | cons v c'' =>
      rw [List.cons_append] at hc2
      injection hc2 with h1 h2
      refine Or.inr ⟨c'', h2, ?_⟩
      rw [h1]
      exact hc1

theorem HoldSetter.extend (l : List Tick) (u : Tick) (t0 : ℕ)
    (hs : HoldSetter l t0) (hd : u.daytime = true)
    (hp : dayTickCount l % 3 = 2 → u.personDetected = true) :
    HoldSetter (l ++ [u]) t0 := by
  obtain ⟨pre₁, tj, mid, rfl, h1, h2, h3, h4, h5⟩ := hs
  refine ⟨pre₁, tj, mid ++ [u], by simp, h1, h2, h3, h4, ?_⟩
  intro mid₁ v mid₂ hsplit
  rcases snoc_eq_append_cons hsplit with ⟨h6, h7, h8⟩ | ⟨mid₂', h6, h7⟩
  · subst h7
    subst h8
    exact ⟨hd, hp⟩
  · subst h7
    exact h5 mid₁ v mid₂' rfl

theorem prev_or_holdNone (cfg : AutoConfig) (pre : List Tick) :
    (runAuto cfg initAutoState pre).prevDaytime = some true ∨
    (runAuto cfg initAutoState pre).detHoldStart = none := by
  induction pre using List.reverseRecOn with
  | nil => right; rfl
  | append_singleton l u ih =>
    rw [runAuto_append, runAuto_single]
    cases hd : u.daytime
    · right
      rw [step_night_eq cfg _ u hd, (processNight_preserved cfg _ u).1]
      rcases hp : (runAuto cfg initAutoState l).prevDaytime with _ | b
      · rw [amt_hold_first cfg _ u hp]
        rcases ih with h | h
        · rw [hp] at h; cases h
        · exact h
      · cases b
        · rw [amt_night_stable cfg _ u hd hp]
          rcases ih with h | h
          · rw [hp] at h; cases h
          · exact h
        · exact amt_d2n_hold cfg _ u hp hd
    · left
      rw [step_prev, hd]

theorem detHold_sound (cfg : AutoConfig) :
    ∀ (pre : List Tick) (t0 : ℕ),
      (runAuto cfg initAutoState pre).detHoldStart = some t0 →
      HoldSetter pre t0 := by
  intro pre
  induction pre using List.reverseRecOn with
  | nil => intro t0 h; simp [runAuto, initAutoState] at h
  | append_singleton l u ih =>
    intro t0 h
    rw [runAuto_append, runAuto_single] at h
    cases hd : u.daytime
    · exfalso
      rcases prev_or_holdNone cfg (l ++ [u]) with hp | hp
      · rw [runAuto_append, runAuto_single, step_prev, hd] at hp
        cases hp
      · rw [runAuto_append, runAuto_single] at hp
        rw [hp] at h
        cases h
    · have hskipval : (runAuto cfg initAutoState l).yoloFrameSkip =
          dayTickCount l % 3 := by
        simpa [initAutoState] using
          runAuto_skip cfg l initAutoState (by simp [initAutoState])
      rw [step_day_eq cfg _ u hd] at h
      by_cases hskip :
          (applyModeTransitions cfg (runAuto cfg initAutoState l) u).yoloFrameSkip
            + 1 < 3
      · have h' : (applyModeTransitions cfg (runAuto cfg initAutoState l) u).detHoldStart
            = some t0 := by
          simp only [processDayMode, if_pos hskip] at h
          exact h
        have hsold := amt_hold_some cfg _ u t0 h'
        have hne : dayTickCount l % 3 ≠ 2 := by
          rw [amt_skip, hskipval] at hskip
          omega
        exact HoldSetter.extend l u t0 (ih t0 hsold) hd
          (fun hc => absurd hc hne)
      · cases hdet : u.personDetected
        · exfalso
          have hnone : (processDayMode cfg
              (applyModeTransitions cfg (runAuto cfg initAutoState l) u) u).1.detHoldStart
                = none := by
            simp [processDayMode, if_neg hskip, hdet]
          rw [hnone] at h
          cases h
        · rcases hold :
              (applyModeTransitions cfg (runAuto cfg initAutoState l) u).detHoldStart
            with _ | t0'
          · have ht0 : u.now = t0 := by
              simp [processDayMode, if_neg hskip, hdet, hold] at h
              exact h
            refine ⟨l, u, [], by simp, hd, hdet, ht0, ?_, by simp⟩
            rw [amt_skip, hskipval] at hskip
            omega
          · have hpres : (processDayMode cfg
                (applyModeTransitions cfg (runAuto cfg initAutoState l) u) u).1.detHoldStart
                  = some t0' := by
              simp only [processDayMode, if_neg hskip, hdet, hold]
              split_ifs <;> simp [hold]
            have ht0 : t0' = t0 := by
              rw [hpres] at h
              exact Option.some.inj h
            subst ht0
            have hsold := amt_hold_some cfg _ u t0' hold
            exact HoldSetter.extend l u t0' (ih t0' hsold) hd (fun _ => hdet)

/-- C1: over every trace, the ON publish fires at most once per
contiguous run of day frames; it fires only on a YOLO-processed day
frame whose continuous person-present hold (started by a processed
detection at time `t0`, never interrupted by a processed absence or a
night frame) has lasted at least `DETECTION_HOLD_SEC`; and a single
person-absent processed frame during day mode resets the hold timer
to `none` while leaving the `on_triggered` latch untouched. -/
theorem C1_day_power_on (cfg : AutoConfig) :
    (∀ (s : AutoState) (mid : List Tick), (∀ t ∈ mid, t.daytime = true) →
      countAct Action.powerOn (autoOutputs cfg s mid) ≤ 1) ∧
    (∀ (pre : List Tick) (t : Tick),
      (updateAutoSystem cfg (runAuto cfg initAutoState pre) t).2 =
          some Action.powerOn →
      t.daytime = true ∧ t.personDetected = true ∧
      ∃ t0, (runAuto cfg initAutoState pre).detHoldStart = some t0 ∧
        t0 + cfg.detectionHoldSec ≤ t.now ∧ HoldSetter pre t0) ∧
    (∀ (s : AutoState) (t : Tick), t.daytime = true →
      s.prevDaytime = some true → s.yoloFrameSkip = 2 →
      t.personDetected = false →
      (updateAutoSystem cfg s t).1.detHoldStart = none ∧
      (updateAutoSystem cfg s t).1.onTriggered = s.onTriggered) := by
  refine ⟨fun s mid h => day_atMostOne_powerOn cfg mid s h, ?_, ?_⟩
  · intro pre t h
    obtain ⟨hd, hdet, -, -, -, -, t0, hold, hhold⟩ :=
      step_powerOn_emit cfg _ t h
    have hsold := amt_hold_some cfg _ t t0 hold
    exact ⟨hd, hdet, t0, hsold, hhold, detHold_sound cfg pre t0 hsold⟩
  · intro s t hd hprev hskip hdet
    rw [step_day_eq cfg s t hd, amt_day_stable cfg s t hd hprev]
    constructor <;> simp [processDayMode, hskip, hdet]

/-- Witness: a concrete all-day person-present trace emits the ON
publish at most once. -/
theorem C1_day_power_on_witness :
    countAct Action.powerOn (autoOutputs cfgDemo initAutoState demoDayTrace)
      ≤ 1 :=
  (C1_day_power_on cfgDemo).1 initAutoState demoDayTrace (by decide)

theorem processNight_detected_reset (cfg : AutoConfig) (s : AutoState)
    (t : Tick) (ha : s.nightCheckActive = true)
    (hdet : t.personDetected = true) (hN : 0 < cfg.nightCheckSec) :
    (processNightMode cfg s t).1.nightDeadline =
        some (t.now + cfg.nightCheckSec) ∧
    (processNightMode cfg s t).2 = none := by
  have hlt : ¬(t.now + cfg.nightCheckSec ≤ t.now) := by omega
  constructor <;> simp [processNightMode, ha, hdet, hlt]

theorem processNight_fire (cfg : AutoConfig) (s : AutoState) (t : Tick)
    (d : ℕ) (ha : s.nightCheckActive = true)
    (hdet : t.personDetected = false) (hdl : s.nightDeadline = some d)
    (hle : d ≤ t.now) (hoff : s.offTriggeredOnce = false) :
    (processNightMode cfg s t).2 = some Action.powerOff ∧
    (processNightMode cfg s t).1.nightCheckActive = false ∧
    (processNightMode cfg s t).1.nightDeadline = none ∧
    (processNightMode cfg s t).1.offTriggeredOnce = true := by
  simp [processNightMode, ha, hdet, hdl, hle, hoff]

theorem processNight_guarded (cfg : AutoConfig) (s : AutoState) (t : Tick)
    (d : ℕ) (ha : s.nightCheckActive = true)
    (hdet : t.personDetected = false) (hdl : s.nightDeadline = some d)
    (hle : d ≤ t.now) (hoff : s.offTriggeredOnce = true) :
    (processNightMode cfg s t).2 = none ∧
    (processNightMode cfg s t).1.nightCheckActive = false := by
  simp [processNightMode, ha, hdet, hdl, hle, hoff]

theorem night_zero_powerOff (cfg : AutoConfig) :
    ∀ (mid : List Tick) (s : AutoState), (∀ t ∈ mid, t.daytime = false) →
      s.nightCheckActive = false → s.prevDaytime = some false →
      countAct Action.powerOff (autoOutputs cfg s mid) = 0 := by
  intro mid
  induction mid with
  | nil => intro s _ _ _; simp [autoOutputs, countAct]
  | cons t ts ih =>
    intro s hall hna hprev
    have hd : t.daytime = false := hall t (by simp)
    have hstep : updateAutoSystem cfg s t = processNightMode cfg s t := by
      rw [step_night_eq cfg s t hd, amt_night_stable cfg s t hd hprev]
    obtain ⟨hne, hna', hoff'⟩ := processNight_inactive cfg s t hna
    have hprev' : (processNightMode cfg s t).1.prevDaytime = some false := by
      rw [(processNight_preserved cfg s t).2.2.2.1, hprev]
    rw [autoOutputs, countAct, List.count_cons, hstep]
    have hrest := ih (processNightMode cfg s t).1
      (fun u hu => hall u (by simp [hu])) hna' hprev'
    rw [countAct] at hrest
    rw [hrest]
    simp [hne]

theorem night_atMostOne_powerOff (cfg : AutoConfig) :
    ∀ (mid : List Tick) (s : AutoState), (∀ t ∈ mid, t.daytime = false) →
      countAct Action.powerOff (autoOutputs cfg s mid) ≤ 1 := by
  intro mid
  induction mid with
  | nil => intro s _; simp [autoOutputs, countAct]
  | cons t ts ih =>
    intro s hall
    rw [autoOutputs, countAct, List.count_cons]
    simp only [beq_iff_eq]
    by_cases hemit : (updateAutoSystem cfg s t).2 = some Action.powerOff
    · obtain ⟨-, hna, hprev, -, -⟩ := step_powerOff_emit cfg s t hemit
      have hz := night_zero_powerOff cfg ts (updateAutoSystem cfg s t).1
        (fun u hu => hall u (by simp [hu])) hna hprev
      rw [countAct] at hz
      rw [hz, hemit]
      simp
    · have hle := ih (updateAutoSystem cfg s t).1
        (fun u hu => hall u (by simp [hu]))
      rw [countAct] at hle
      rw [if_neg hemit]
      simpa using hle

theorem night_off_stable (cfg : AutoConfig) :
    ∀ (mid : List Tick) (s : AutoState), (∀ t ∈ mid, t.daytime = false) →
      s.prevDaytime = some false →
      countAct Action.powerOff (autoOutputs cfg s mid) = 0 →
      (runAuto cfg s mid).offTriggeredOnce = s.offTriggeredOnce := by
  intro mid
  induction mid with
  | nil => intro s _ _ _; rfl
  | cons t ts ih =>
    intro s hall hprev hcount
    have hd : t.daytime = false := hall t (by simp)
    have hstep : updateAutoSystem cfg s t = processNightMode cfg s t := by
      rw [step_night_eq cfg s t hd, amt_night_stable cfg s t hd hprev]
    rw [autoOutputs, countAct, List.count_cons] at hcount
    simp only [beq_iff_eq] at hcount
    have hne : (updateAutoSystem cfg s t).2 ≠ some Action.powerOff := by
      intro hc
      rw [if_pos hc] at hcount
      omega
    have hrest : countAct Action.powerOff
        (autoOutputs cfg (updateAutoSystem cfg s t).1 ts) = 0 := by
      rw [countAct]
      rw [if_neg hne] at hcount
      omega
    have hprev' : (updateAutoSystem cfg s t).1.prevDaytime = some false := by
      rw [step_prev, hd]
    rw [runAuto]
    rw [ih (updateAutoSystem cfg s t).1 (fun u hu => hall u (by simp [hu]))
      hprev' hrest]
    rw [hstep] at hne ⊢
    rcases processNight_off_cases cfg s t with hc | hc
    · exact absurd hc hne
    · exact hc

/-- C2: in night stage 1, a person-detected frame pushes the
no-person deadline to `now + NIGHT_CHECK_MINUTES` (and cannot fire
OFF on that same frame when the check interval is positive); on a
frame at which the deadline has passed, the OFF publish fires exactly
when `off_triggered_once` is still unset, setting it and dropping to
stage 2 — and when the guard is already set the gate still drops to
stage 2 silently; over any contiguous run of night frames the OFF
publish fires at most once; and while no OFF fires during such a run
the guard keeps its value, so the first deadline-passing frame always
finds it unset. -/
theorem C2_night_power_off (cfg : AutoConfig) :
    (∀ (s : AutoState) (t : Tick), t.daytime = false →
      s.prevDaytime = some false → s.nightCheckActive = true →
      t.personDetected = true → 0 < cfg.nightCheckSec →
      (updateAutoSystem cfg s t).1.nightDeadline =
          some (t.now + cfg.nightCheckSec) ∧
      (updateAutoSystem cfg s t).2 = none) ∧
    (∀ (s : AutoState) (t : Tick) (d : ℕ), t.daytime = false →
      s.prevDaytime = some false → s.nightCheckActive = true →
      t.personDetected = false → s.nightDeadline = some d → d ≤ t.now →
      s.offTriggeredOnce = false →
      (updateAutoSystem cfg s t).2 = some Action.powerOff ∧
      (updateAutoSystem cfg s t).1.nightCheckActive = false ∧
      (updateAutoSystem cfg s t).1.nightDeadline = none ∧
      (updateAutoSystem cfg s t).1.offTriggeredOnce = true) ∧
    (∀ (s : AutoState) (t : Tick) (d : ℕ), t.daytime = false →
      s.prevDaytime = some false → s.nightCheckActive = true →
      t.personDetected = false → s.nightDeadline = some d → d ≤ t.now →
      s.offTriggeredOnce = true →
      (updateAutoSystem cfg s t).2 = none ∧
      (updateAutoSystem cfg s t).1.nightCheckActive = false) ∧
    (∀ (s : AutoState) (mid : List Tick), (∀ t ∈ mid, t.daytime = false) →
      countAct Action.powerOff (autoOutputs cfg s mid) ≤ 1) ∧
    (∀ (s : AutoState) (mid : List Tick), (∀ t ∈ mid, t.daytime = false) →
      s.prevDaytime = some false →
      countAct Action.powerOff (autoOutputs cfg s mid) = 0 →
      (runAuto cfg s mid).offTriggeredOnce = s.offTriggeredOnce) := by
  refine ⟨?_, ?_, ?_,
    fun s mid h => night_atMostOne_powerOff cfg mid s h,
    fun s mid h hp hc => night_off_stable cfg mid s h hp hc⟩
  · intro s t hd hprev ha hdet hN
    rw [step_night_eq cfg s t hd, amt_night_stable cfg s t hd hprev]
    obtain ⟨h1, h2⟩ := processNight_detected_reset cfg s t ha hdet hN
    exact ⟨h1, h2⟩
  · intro s t d hd hprev ha hdet hdl hle hoff
    rw [step_night_eq cfg s t hd, amt_night_stable cfg s t hd hprev]
    obtain ⟨h1, h2, h3, h4⟩ := processNight_fire cfg s t d ha hdet hdl hle hoff
    exact ⟨h1, h2, h3, h4⟩
  · intro s t d hd hprev ha hdet hdl hle hoff
    rw [step_night_eq cfg s t hd, amt_night_stable cfg s t hd hprev]
    exact processNight_guarded cfg s t d ha hdet hdl hle hoff

/-- Witness: a concrete stage-1 state whose deadline (5) has passed
fires the OFF publish. -/
theorem C2_night_power_off_witness :
    (updateAutoSystem cfgDemo sC2 (nightT false 5)).2 = some Action.powerOff :=
  ((C2_night_power_off cfgDemo).2.1 sC2 (nightT false 5) 5 rfl rfl rfl rfl rfl
    (by decide) rfl).1

set_option maxRecDepth 40000 in
/-- C3 (counterexample): the frame-index warm-up counter is never
reset on a Day→Night transition.  After a prefix that ends in day
mode but has already accumulated 30 night frames, the very next night
interval emits a SaveSnapshot on its third frame — well inside the
first `WARMUP_FRAMES` (30) frames after entering night mode. -/
theorem C3_warmup_counterexample :
    (∀ t ∈ c3night, t.daytime = false) ∧
    c3night.length ≤ WARMUP_FRAMES ∧
    (runAuto cfgC3 initAutoState c3lead).prevDaytime = some true ∧
    countAct Action.saveSnapshot
      (autoOutputs cfgC3 (runAuto cfgC3 initAutoState c3lead) c3night)
        = 1 := by
  decide

/-- C3 (amended): a SaveSnapshot can be emitted only on a night frame
once the cumulative count of night-mode frames since application
start (not since the latest Day→Night transition) exceeds
`WARMUP_FRAMES`; the per-transition guarantee of the claim therefore
holds only for the first night interval. -/
theorem C3_warmup_amended (cfg : AutoConfig) (pre : List Tick) (t : Tick)
    (h : (updateAutoSystem cfg (runAuto cfg initAutoState pre) t).2 =
          some Action.saveSnapshot) :
    t.daytime = false ∧ WARMUP_FRAMES < nightTickCount pre + 1 := by
  obtain ⟨hd, -, hwarm, -⟩ := step_snap_emit cfg _ t h
  refine ⟨hd, ?_⟩
  rw [amt_frameIdx, runAuto_frameIdx] at hwarm
  simpa [initAutoState] using hwarm

set_option maxRecDepth 40000 in
/-- Witness for the amended C3 statement on the counterexample
trace. -/
theorem C3_warmup_amended_witness :
    (nightT true 35).daytime = false ∧
    WARMUP_FRAMES <
      nightTickCount (c3lead ++ [nightT false 33, nightT false 34]) + 1 :=
  C3_warmup_amended cfgC3 (c3lead ++ [nightT false 33, nightT false 34])
    (nightT true 35) (by decide)

/-- C4: `is_work_time` is true exactly when today's weekday is
enabled and the time of day lies in the inclusive window — the plain
window when start ≤ end, the midnight-wrapping union when start >
end; in particular `08:30–19:00` is work time at 12:00 but not at
20:00, and the overnight `22:00–06:00` is work time at 23:30 and at
01:00 but not at 12:00. -/
theorem C4_is_work_time_correct :
    (∀ (sch : WorkSchedule) (now : NowTime),
      is_work_time sch now = true ↔
        now.weekday ∈ sch.enabledDays ∧
          ((timeAsSeconds sch.startHour sch.startMinute ≤
              timeAsSeconds sch.endHour sch.endMinute ∧
            timeAsSeconds sch.startHour sch.startMinute ≤ now.secondsOfDay ∧
            now.secondsOfDay ≤ timeAsSeconds sch.endHour sch.endMinute) ∨
           (timeAsSeconds sch.endHour sch.endMinute <
              timeAsSeconds sch.startHour sch.startMinute ∧
            (timeAsSeconds sch.startHour sch.startMinute ≤ now.secondsOfDay ∨
             now.secondsOfDay ≤ timeAsSeconds sch.endHour sch.endMinute)))) ∧
    is_work_time sch0830 { weekday := 0, secondsOfDay := 12 * 3600 } = true ∧
    is_work_time sch0830 { weekday := 0, secondsOfDay := 20 * 3600 } = false ∧
    is_work_time sch2200 { weekday := 0, secondsOfDay := 23 * 3600 + 1800 }
      = true ∧
    is_work_time sch2200 { weekday := 0, secondsOfDay := 3600 } = true ∧
    is_work_time sch2200 { weekday := 0, secondsOfDay := 12 * 3600 }
      = false := by
  refine ⟨?_, by decide, by decide, by decide, by decide, by decide⟩
  intro sch now
  simp only [is_work_time]
  split_ifs with hd hle
  · simp only [decide_eq_true_eq]
    constructor
    · intro h
      exact ⟨hd, Or.inl ⟨hle, h⟩⟩
    · rintro ⟨-, ⟨-, h⟩ | ⟨h1, -⟩⟩
      · exact h
      · omega
  · simp only [decide_eq_true_eq]
    constructor
    · intro h
      exact ⟨hd, Or.inr ⟨by omega, h⟩⟩
    · rintro ⟨-, ⟨h1, -⟩ | ⟨-, h⟩⟩
      · omega
      · exact h
  · simp only [Bool.false_eq_true, false_iff]
    rintro ⟨h, -⟩
    exact hd h

/-- Witness: the equivalence instantiated at a weekday noon inside
the `08:30–19:00` window. -/
theorem C4_is_work_time_correct_witness :
    is_work_time sch0830 { weekday := 2, secondsOfDay := 10 * 3600 }
      = true :=
  (C4_is_work_time_correct.1 sch0830
    { weekday := 2, secondsOfDay := 10 * 3600 }).mpr (by decide)

/-- C5: with manual override off, one scheduler poll invokes at most
one callback and never both; the start callback runs exactly when it
is work time, services are not yet started and auto-start is on; the
stop callback exactly in the symmetric case; `services_started` can
only become true through a start callback that returned `True`, and a
start that returns falsy or raises leaves it unchanged for retry. -/
theorem C5_scheduler_tick_exclusive (s : SchedulerState) (workTime : Bool)
    (startRes : StartOutcome) (stopRes : StopOutcome)
    (h : s.manualOverride = false) :
    ((schedulerTick s workTime startRes stopRes).2).length ≤ 1 ∧
    ¬(CallbackCall.startCall ∈ (schedulerTick s workTime startRes stopRes).2 ∧
      CallbackCall.stopCall ∈ (schedulerTick s workTime startRes stopRes).2) ∧
    (CallbackCall.startCall ∈ (schedulerTick s workTime startRes stopRes).2 ↔
      workTime = true ∧ s.servicesStarted = false ∧
        s.autoStartEnabled = true) ∧
    (CallbackCall.stopCall ∈ (schedulerTick s workTime startRes stopRes).2 ↔
      workTime = false ∧ s.servicesStarted = true ∧
        s.autoStopEnabled = true) ∧
    ((schedulerTick s workTime startRes stopRes).1.servicesStarted = true →
      s.servicesStarted = true ∨ startRes = StartOutcome.retTrue) ∧
    (CallbackCall.startCall ∈ (schedulerTick s workTime startRes stopRes).2 →
      startRes ≠ StartOutcome.retTrue →
      (schedulerTick s workTime startRes stopRes).1.servicesStarted =
        s.servicesStarted) := by
  obtain ⟨mo, ss, sa, sp⟩ := s
  simp only at h
  subst h
  cases workTime <;> cases ss <;> cases sa <;> cases sp <;>
    cases startRes <;> cases stopRes <;>
      simp [schedulerTick]

/-- Witness: a successful auto-start tick invokes exactly one
callback. -/
theorem C5_scheduler_tick_exclusive_witness :
    ((schedulerTick
        { manualOverride := false, servicesStarted := false,
          autoStartEnabled := true, autoStopEnabled := true }
        true StartOutcome.retTrue StopOutcome.ret).2).length ≤ 1 :=
  (C5_scheduler_tick_exclusive
    { manualOverride := false, servicesStarted := false,
      autoStartEnabled := true, autoStopEnabled := true }
    true StartOutcome.retTrue StopOutcome.ret rfl).1

/-- C10: outside work hours (for well-formed clock values),
`minutes_until_work_start` returns the minute distance to the next
occurrence of the configured start time within 24 hours — a value in
`[1, 1440]` with `(current + m) mod 1440 = start` — and the value is
oblivious to the enabled-weekday set: any weekday mask that also
reports non-work-time yields the same result. -/
theorem C10_minutes_until_start (sch : WorkSchedule) (now : NowTime)
    (hh : sch.startHour < 24) (hm : sch.startMinute < 60)
    (hsec : now.secondsOfDay < 86400)
    (hw : is_work_time sch now = false) :
    ∃ m, minutes_until_work_start sch now = some m ∧ 1 ≤ m ∧ m ≤ 1440 ∧
      (now.secondsOfDay / 60 + m) % 1440 =
        sch.startHour * 60 + sch.startMinute ∧
      ∀ days : List ℕ,
        is_work_time { sch with enabledDays := days } now = false →
        minutes_until_work_start { sch with enabledDays := days } now
          = some m := by
  have hcur : now.secondsOfDay / 60 < 1440 := by omega
  have hstart : sch.startHour * 60 + sch.startMinute < 1440 := by omega
  by_cases hlt : now.secondsOfDay / 60 < sch.startHour * 60 + sch.startMinute
  · refine ⟨sch.startHour * 60 + sch.startMinute - now.secondsOfDay / 60,
      ?_, by omega, by omega, by omega, ?_⟩
    · simp [minutes_until_work_start, hw, hlt]
    · intro days hdw
      simp [minutes_until_work_start, hdw, hlt]
  · refine ⟨24 * 60 - now.secondsOfDay / 60 +
        (sch.startHour * 60 + sch.startMinute),
      ?_, by omega, by omega, by omega, ?_⟩
    · simp [minutes_until_work_start, hw, hlt]
    · intro days hdw
      simp [minutes_until_work_start, hdw, hlt]

/-- Witness: Saturday noon with a Monday–Friday schedule is 1230
minutes (until Sunday 08:30 — Sunday not being enabled is
ignored). -/
theorem C10_minutes_until_start_witness :
    ∃ m, minutes_until_work_start schWeekdays
        { weekday := 5, secondsOfDay := 12 * 3600 } = some m ∧
      1 ≤ m ∧ m ≤ 1440 ∧
      (((12 * 3600 : ℕ)) / 60 + m) % 1440 = 8 * 60 + 30 ∧
      ∀ days : List ℕ,
        is_work_time { schWeekdays with enabledDays := days }
            { weekday := 5, secondsOfDay := 12 * 3600 } = false →
        minutes_until_work_start { schWeekdays with enabledDays := days }
            { weekday := 5, secondsOfDay := 12 * 3600 } = some m :=
  C10_minutes_until_start schWeekdays
    { weekday := 5, secondsOfDay := 12 * 3600 }
    (by decide) (by decide) (by decide) (by decide)

/-- How an operation acts on the record of a given id: not at all, as
a start with the given outcome, or as a stop with the given
outcome. -/
def opOn (id : ServiceId) : SMOp → Option (SvcStartRes ⊕ SvcStopRes)
  | SMOp.startOne id' res => if id = id' then some (Sum.inl res) else none
  | SMOp.stopOne id' res => if id = id' then some (Sum.inr res) else none
  | SMOp.startAll rc rv rf =>
    match id with
    | ServiceId.camera => some (Sum.inl rc)
    | ServiceId.vibration => some (Sum.inl rv)
    | ServiceId.frying => some (Sum.inl rf)
  | SMOp.stopAll rc rv rf =>
    match id with
    | ServiceId.camera => some (Sum.inr rc)
    | ServiceId.vibration => some (Sum.inr rv)
    | ServiceId.frying => some (Sum.inr rf)

/-- Every boundary status of a run is one of the rest statuses. -/
def restAll (m : SMState) : Bool :=
  restStatus (m.recordOf ServiceId.camera).status &&
    restStatus (m.recordOf ServiceId.vibration).status &&
    restStatus (m.recordOf ServiceId.frying).status

theorem recordOf_setRecord (m : SMState) (i j : ServiceId)
    (r : ServiceRecord) :
    (m.setRecord i r).recordOf j = if j = i then r else m.recordOf j := by
  cases i <;> cases j <;> simp [SMState.setRecord, SMState.recordOf]

theorem smStep_recordOf (m : SMState) (id : ServiceId) (op : SMOp) :
    ((smStep m op).recordOf id) =
      match opOn id op with
      | none => m.recordOf id
      | some (Sum.inl res) => (recordStart (m.recordOf id) res).1
      | some (Sum.inr res) => (recordStop (m.recordOf id) res).1 := by
  cases op with
  | startOne id' res =>
    cases id <;> cases id' <;>
      simp [smStep, opOn, SMState.setRecord, SMState.recordOf]
  | stopOne id' res =>
    cases id <;> cases id' <;>
      simp [smStep, opOn, SMState.setRecord, SMState.recordOf]
  | startAll rc rv rf =>
    cases id <;> simp [smStep, opOn, SMState.setRecord, SMState.recordOf]
  | stopAll rc rv rf =>
    cases id <;> simp [smStep, opOn, SMState.setRecord, SMState.recordOf]

theorem smWrites_eq (m : SMState) (id : ServiceId) (op : SMOp) :
    smWrites m id op =
      match opOn id op with
      | none => []
      | some (Sum.inl res) => (recordStart (m.recordOf id) res).2.2
      | some (Sum.inr res) => (recordStop (m.recordOf id) res).2 := by
  cases op with
  | startOne id' res =>
    cases id <;> cases id' <;> simp [smWrites, opOn, SMState.recordOf]
  | stopOne id' res =>
    cases id <;> cases id' <;> simp [smWrites, opOn, SMState.recordOf]
  | startAll rc rv rf =>
    cases id <;> simp [smWrites, opOn, SMState.recordOf]
  | stopAll rc rv rf =>
    cases id <;> simp [smWrites, opOn, SMState.recordOf]

theorem recordStart_chain (r : ServiceRecord) (res : SvcStartRes)
    (h : restStatus r.status = true) :
    chainOK observedEdge r.status (recordStart r res).2.2 = true ∧
    (recordStart r res).2.2.getLastD r.status = (recordStart r res).1.status ∧
    restStatus (recordStart r res).1.status = true := by
  obtain ⟨st, em⟩ := r
  cases st <;> cases res <;>
    simp_all [recordStart, restStatus, chainOK, observedEdge, claimedEdge,
      List.getLastD]

theorem recordStop_chain (r : ServiceRecord) (res : SvcStopRes)
    (h : restStatus r.status = true) :
    chainOK observedEdge r.status (recordStop r res).2 = true ∧
    (recordStop r res).2.getLastD r.status = (recordStop r res).1.status ∧
    restStatus (recordStop r res).1.status = true := by
  obtain ⟨st, em⟩ := r
  cases st <;> cases res <;>
    simp_all [recordStop, restStatus, chainOK, observedEdge, claimedEdge,
      List.getLastD]

theorem chainOK_append (e : ServiceStatus → ServiceStatus → Bool)
    (a : ServiceStatus) (l₁ l₂ : List ServiceStatus) :
    chainOK e a (l₁ ++ l₂) =
      (chainOK e a l₁ && chainOK e (l₁.getLastD a) l₂) := by
  induction l₁ generalizing a with
  | nil => simp [chainOK, List.getLastD]
  | cons b l ih =>
    simp only [List.cons_append, chainOK, List.getLastD_cons, List.append_eq,
      ih b, Bool.and_assoc]

theorem smStep_chain (m : SMState) (id : ServiceId) (op : SMOp)
    (h : restAll m = true) :
    chainOK observedEdge (m.recordOf id).status (smWrites m id op) = true ∧
    (smWrites m id op).getLastD (m.recordOf id).status =
      ((smStep m op).recordOf id).status ∧
    restAll (smStep m op) = true := by
  have hrest : ∀ j : ServiceId, restStatus (m.recordOf j).status = true := by
    intro j
    rw [restAll, Bool.and_eq_true, Bool.and_eq_true] at h
    cases j
    · exact h.1.1
    · exact h.1.2
    · exact h.2
  have hone : ∀ j : ServiceId,
      restStatus ((smStep m op).recordOf j).status = true := by
    intro j
    rw [smStep_recordOf]
    rcases opOn j op with _ | res | res
    · exact hrest j
    · exact (recordStart_chain (m.recordOf j) _ (hrest j)).2.2
    · exact (recordStop_chain (m.recordOf j) _ (hrest j)).2.2
  refine ⟨?_, ?_, ?_⟩
  · rw [smWrites_eq]
    rcases opOn id op with _ | res | res
    · rfl
    · exact (recordStart_chain (m.recordOf id) _ (hrest id)).1
    · exact (recordStop_chain (m.recordOf id) _ (hrest id)).1
  · rw [smWrites_eq, smStep_recordOf]
    rcases opOn id op with _ | res | res
    · rfl
    · exact (recordStart_chain (m.recordOf id) _ (hrest id)).2.1
    · exact (recordStop_chain (m.recordOf id) _ (hrest id)).2.1
  · rw [restAll, Bool.and_eq_true, Bool.and_eq_true]
    exact ⟨⟨hone _, hone _⟩, hone _⟩

theorem smTrace_chain :
    ∀ (ops : List SMOp) (m : SMState) (id : ServiceId), restAll m = true →
      chainOK observedEdge (m.recordOf id).status (smTrace m id ops)
        = true := by
  intro ops
  induction ops with
  | nil => intro m id _; rfl
  | cons op ops ih =>
    intro m id h
    obtain ⟨h1, h2, h3⟩ := smStep_chain m id op h
    rw [smTrace, chainOK_append, h1, h2, Bool.true_and]
    exact ih (smStep m op) id h3

/-- C6 (counterexample): a failed start followed by a successful
start walks the camera record through STOPPED→STARTING→ERROR→
STARTING→RUNNING; the ERROR→STARTING transition is outside the edge
set asserted by the claim, so the claimed chain check fails. -/
theorem C6_status_counterexample :
    smTrace initSMState ServiceId.camera
        [SMOp.startOne ServiceId.camera SvcStartRes.fail,
         SMOp.startOne ServiceId.camera SvcStartRes.ok] =
      [ServiceStatus.starting, ServiceStatus.error,
       ServiceStatus.starting, ServiceStatus.running] ∧
    claimedEdge ServiceStatus.error ServiceStatus.starting = false ∧
    chainOK claimedEdge ServiceStatus.stopped
      (smTrace initSMState ServiceId.camera
        [SMOp.startOne ServiceId.camera SvcStartRes.fail,
         SMOp.startOne ServiceId.camera SvcStartRes.ok]) = false := by
  decide

/-- C6 (amended): over every operation sequence, every status
transition of every record lies in the claimed edge set extended with
the two ERROR-recovery edges ERROR→STARTING and ERROR→STOPPING
(`start_service`/`stop_service` treat ERROR like any other
non-RUNNING/non-STOPPED state); in particular no record ever steps
directly from STOPPED to RUNNING, and every claimed edge is
realizable within the observed set. -/
theorem C6_status_edges (id : ServiceId) (ops : List SMOp) :
    chainOK observedEdge (initSMState.recordOf id).status
      (smTrace initSMState id ops) = true ∧
    observedEdge ServiceStatus.stopped ServiceStatus.running = false ∧
    (∀ a b, claimedEdge a b = true → observedEdge a b = true) := by
  refine ⟨smTrace_chain ops initSMState id (by cases id <;> rfl), rfl, ?_⟩
  intro a b hab
  cases a <;> cases b <;> simp_all [claimedEdge, observedEdge]

/-- C7 (counterexample): stopping an active session writes the
summary but does not reset the analyzer — after one buffered reading,
`stop_monitoring` leaves the magnitude buffer holding that reading
and the sample counter at 1, contradicting the claimed reset to
empty/zero. -/
theorem C7_stop_counterexample :
    ((demoRun2.stop_monitoring 10).2).isSome = true ∧
    (demoRun2.stop_monitoring 10).1.analyzer.magnitude_buffer = [1] ∧
    (demoRun2.stop_monitoring 10).1.analyzer.total_samples = 1 ∧
    ¬((demoRun2.stop_monitoring 10).1.analyzer.magnitude_buffer = [] ∧
      (demoRun2.stop_monitoring 10).1.analyzer.total_samples = 0) := by
  decide

/-- C7 (amended): `stop_monitoring` on an active session writes the
JSON summary (statistics snapshot, axis stats, alert list, duration)
assembled from the analyzer at stop time, but leaves the analyzer's
buffers and counters untouched; they are cleared only by the
`analyzer.reset()` performed by the next successful
`start_monitoring`. -/
theorem C7_stop_writes_summary_no_reset (d : VibrationDetector) (now : ℚ)
    (sid : String) (hm : d.is_monitoring = true)
    (hs : d.session_id = some sid) :
    (d.stop_monitoring now).2 = some (mkSessionSummary d now sid) ∧
    (d.stop_monitoring now).1.analyzer = d.analyzer ∧
    (∀ (name : String) (now2 : ℚ),
      ((d.stop_monitoring now).1.start_monitoring name now2).2 = true →
      ((d.stop_monitoring now).1.start_monitoring name now2).1.analyzer =
        d.analyzer.reset now2) := by
  have h1 : d.stop_monitoring now =
      ({ d with is_running := false, is_monitoring := false },
       some (mkSessionSummary d now sid)) := by
    simp [VibrationDetector.stop_monitoring, hm, hs]
  rw [h1]
  refine ⟨rfl, rfl, ?_⟩
  intro name now2 hstart
  rcases hcon : d.sensorConnected with _ | _
  · simp [VibrationDetector.start_monitoring, hcon] at hstart
  · simp [VibrationDetector.start_monitoring, hcon]

/-- Witness: the amended C7 statement on a concrete one-reading
session. -/
theorem C7_stop_writes_summary_no_reset_witness :
    (demoRun2.stop_monitoring 10).2 =
        some (mkSessionSummary demoRun2 10 "session") ∧
    (demoRun2.stop_monitoring 10).1.analyzer = demoRun2.analyzer :=
  ⟨(C7_stop_writes_summary_no_reset demoRun2 10 "session" (by decide)
      (by decide)).1,
   (C7_stop_writes_summary_no_reset demoRun2 10 "session" (by decide)
      (by decide)).2.1⟩

theorem fixDecimal_close (k : ℕ) (q : ℚ) :
    |fixDecimal k q - q| ≤ 1 / (2 * 10 ^ k) := by
  have h10 : (0:ℚ) < 10 ^ k := by positivity
  have habs : |(((round (q * 10 ^ k) : ℤ) : ℚ)) - q * 10 ^ k| ≤ 1 / 2 := by
    rw [abs_sub_comm]
    exact abs_sub_round (q * 10 ^ k)
  have heq : fixDecimal k q - q =
      ((((round (q * 10 ^ k) : ℤ) : ℚ)) - q * 10 ^ k) / 10 ^ k := by
    field_simp [fixDecimal]
    ring
  rw [heq, abs_div, abs_of_pos h10,
    show (1:ℚ) / (2 * 10 ^ k) = (1 / 2) / 10 ^ k by ring,
    div_le_div_iff_of_pos_right h10]
  exact habs

/-- C8 (counterexample): the timestamp column is written with only 3
decimal places (`:.3f`), so the reading with timestamp 1.0004
re-parses as 1.000 — an error of 4·10⁻⁴, far beyond the claimed
1·10⁻⁶ tolerance. -/
theorem C8_roundtrip_counterexample :
    ¬(|(log_reading 0 cexReading).timestampF - cexReading.timestamp| ≤
        1 / 1000000) := by
  norm_num [log_reading, cexReading, fixDecimal, round_eq, abs_of_pos]

/-- C8 (amended): re-parsing a logged CSV row recovers the four
axis/magnitude columns (written with 6 decimal places) within 1·10⁻⁶,
but the timestamp (written with 3 decimal places) only within
5·10⁻⁴. -/
theorem C8_roundtrip_amended (startTime : ℚ) (r : VibrationReading) :
    |(log_reading startTime r).x_axisF - r.x_axis| ≤ 1 / 1000000 ∧
    |(log_reading startTime r).y_axisF - r.y_axis| ≤ 1 / 1000000 ∧
    |(log_reading startTime r).z_axisF - r.z_axis| ≤ 1 / 1000000 ∧
    |(log_reading startTime r).magnitudeF - r.magnitude| ≤ 1 / 1000000 ∧
    |(log_reading startTime r).timestampF - r.timestamp| ≤ 5 / 10000 := by
  have h6 : ∀ q : ℚ, |fixDecimal 6 q - q| ≤ 1 / 1000000 := by
    intro q
    calc |fixDecimal 6 q - q| ≤ 1 / (2 * 10 ^ 6) := fixDecimal_close 6 q
    _ ≤ 1 / 1000000 := by norm_num
  have h3 : ∀ q : ℚ, |fixDecimal 3 q - q| ≤ 5 / 10000 := by
    intro q
    calc |fixDecimal 3 q - q| ≤ 1 / (2 * 10 ^ 3) := fixDecimal_close 3 q
    _ ≤ 5 / 10000 := by norm_num
  exact ⟨h6 _, h6 _, h6 _, h6 _, h3 _⟩

/-- Witness: the amended C8 bounds instantiated at a concrete
reading. -/
theorem C8_roundtrip_amended_witness :
    |(log_reading 0 demoReading).x_axisF - demoReading.x_axis|
        ≤ 1 / 1000000 ∧
    |(log_reading 0 demoReading).y_axisF - demoReading.y_axis|
        ≤ 1 / 1000000 ∧
    |(log_reading 0 demoReading).z_axisF - demoReading.z_axis|
        ≤ 1 / 1000000 ∧
    |(log_reading 0 demoReading).magnitudeF - demoReading.magnitude|
        ≤ 1 / 1000000 ∧
    |(log_reading 0 demoReading).timestampF - demoReading.timestamp|
        ≤ 5 / 10000 :=
  C8_roundtrip_amended 0 demoReading

/-- C9: `_log_reading` renders a temperature or frequency column as
the empty string exactly when the field is `None` or exactly 0.0 (the
Python code tests truthiness, not presence), so a present zero
reading produces the very same row as an absent field. -/
theorem C9_zero_optional_blank (startTime : ℚ) (r : VibrationReading) :
    ((log_reading startTime r).temperatureF = none ↔
      r.temperature = none ∨ r.temperature = some 0) ∧
    ((log_reading startTime r).frequencyF = none ↔
      r.frequency = none ∨ r.frequency = some 0) ∧
    log_reading startTime { r with temperature := some 0 } =
      log_reading startTime { r with temperature := none } ∧
    log_reading startTime { r with frequency := some 0 } =
      log_reading startTime { r with frequency := none } := by
  refine ⟨?_, ?_, ?_, ?_⟩
  · simp only [log_reading, optTruthy]
    cases r.temperature with
    | none => simp
    | some v => by_cases hv : v = 0 <;> simp [hv]
  · simp only [log_reading, optTruthy]
    cases r.frequency with
    | none => simp
    | some v => by_cases hv : v = 0 <;> simp [hv]
  · simp [log_reading, optTruthy]
  · simp [log_reading, optTruthy]

/-- Witness: a zero temperature renders as the empty column. -/
theorem C9_zero_optional_blank_witness :
    (log_reading 0 { demoReading with temperature := some 0 }).temperatureF
      = none :=
  ((C9_zero_optional_blank 0
    { demoReading with temperature := some 0 }).1).mpr (Or.inr rfl)

/-- Witness for C6: a claimed edge instantiated through the observed
edge set. -/
theorem C6_status_edges_witness :
    observedEdge ServiceStatus.stopped ServiceStatus.starting = true :=
  (C6_status_edges ServiceId.camera []).2.2 ServiceStatus.stopped
    ServiceStatus.starting (by decide)

end JetsonMonitor
